import Mathlib

/-!
Quota ledger of tenant-service.

A shallow embedding of `internal/data/quota.go` (the repository behind the quota
ledger) and of `internal/biz/quota.go`.

* Go `int32` values are integers together with an explicit wrap-around
  (`wrap32`); every arithmetic operation of the source is wrapped exactly where
  the source computes it.
* The two tables `tenant_quotas` and `quota_usage_records` are lists of rows;
  `tenant_quotas` is held in ascending primary-key order, the order in which
  gorm's `First` scans it.
* A gorm call that can fail takes its failure from an explicit `Env`, so that
  "no persistence failure" is the environment without faults.
-/

namespace TenantService

/-! ## int32 arithmetic -/

/-- Smallest int32. -/
def minInt32 : Int := -2147483648

/-- Largest int32. -/
def maxInt32 : Int := 2147483647

/-- Membership in the int32 range. -/
def isInt32 (x : Int) : Prop := minInt32 ≤ x ∧ x ≤ maxInt32

instance (x : Int) : Decidable (isInt32 x) := by
  unfold isInt32; infer_instance

/-- Two's-complement reduction of an integer to the int32 range. -/
def wrap32 (x : Int) : Int := (x + 2147483648) % 4294967296 - 2147483648

/-- Go `a + b` on int32. -/
def add32 (a b : Int) : Int := wrap32 (a + b)

/-- Go `a - b` on int32. -/
def sub32 (a b : Int) : Int := wrap32 (a - b)

/-- Go `-a` on int32. -/
def neg32 (a : Int) : Int := wrap32 (-a)

/-! ## biz enums (`internal/biz/quota.go`) -/

/-- Go `type QuotaType int32`. -/
abbrev QuotaType := Int
/-- Go `type LimitType int32`. -/
abbrev LimitType := Int
/-- Go `type OperationType int32`. -/
abbrev OperationType := Int

def QuotaTypeUnspecified : QuotaType := 0
def QuotaTypeMarketingCampaign : QuotaType := 1
def QuotaTypeRedeemCode : QuotaType := 2
def QuotaTypeSMS : QuotaType := 3

def LimitTypeUnspecified : LimitType := 0
def LimitTypeDaily : LimitType := 1
def LimitTypeMonthly : LimitType := 2
def LimitTypeTotal : LimitType := 3
def LimitTypeConcurrent : LimitType := 4

def OperationTypeUnspecified : OperationType := 0
def OperationTypeConsume : OperationType := 1
def OperationTypeRelease : OperationType := 2
def OperationTypeAdjust : OperationType := 3

/-! ## enum conversions (`internal/data/quota.go`, lines 76-162) -/

def convertQuotaTypeToEnum (quotaType : String) : QuotaType :=
  if quotaType = "MARKETING_CAMPAIGN" then QuotaTypeMarketingCampaign
  else if quotaType = "REDEEM_CODE" then QuotaTypeRedeemCode
  else if quotaType = "SMS" then QuotaTypeSMS
  else QuotaTypeUnspecified

def convertQuotaTypeToString (quotaType : QuotaType) : String :=
  if quotaType = QuotaTypeMarketingCampaign then "MARKETING_CAMPAIGN"
  else if quotaType = QuotaTypeRedeemCode then "REDEEM_CODE"
  else if quotaType = QuotaTypeSMS then "SMS"
  else "UNSPECIFIED"

def convertLimitTypeToEnum (limitType : String) : LimitType :=
  if limitType = "DAILY" then LimitTypeDaily
  else if limitType = "MONTHLY" then LimitTypeMonthly
  else if limitType = "TOTAL" then LimitTypeTotal
  else if limitType = "CONCURRENT" then LimitTypeConcurrent
  else LimitTypeUnspecified

def convertLimitTypeToString (limitType : LimitType) : String :=
  if limitType = LimitTypeDaily then "DAILY"
  else if limitType = LimitTypeMonthly then "MONTHLY"
  else if limitType = LimitTypeTotal then "TOTAL"
  else if limitType = LimitTypeConcurrent then "CONCURRENT"
  else "UNSPECIFIED"

def convertOperationTypeToEnum (operationType : String) : OperationType :=
  if operationType = "CONSUME" then OperationTypeConsume
  else if operationType = "RELEASE" then OperationTypeRelease
  else if operationType = "ADJUST" then OperationTypeAdjust
  else OperationTypeUnspecified

def convertOperationTypeToString (operationType : OperationType) : String :=
  if operationType = OperationTypeConsume then "CONSUME"
  else if operationType = OperationTypeRelease then "RELEASE"
  else if operationType = OperationTypeAdjust then "ADJUST"
  else "UNSPECIFIED"

/-! ## rows -/

/-- Row of `tenant_quotas` (Go `QuotaModel`). Times are instants on an integer
time line; the JSON column `product_codes` is held as the array it encodes. -/
structure QuotaModel where
  QuotaID : Int
  TenantID : String
  QuotaType : String
  LimitType : String
  HardLimit : Int
  SoftLimit : Int
  UsedCount : Int
  ResetTime : Int
  NextResetTime : Int
  EffectiveTime : Int
  ExpireTime : Int
  IsGlobal : Bool
  ProductCodes : List String
  ExtraConfig : String
  CreatedBy : String
  CreatedAt : Int
  UpdatedAt : Int
  deriving DecidableEq, Repr

/-- Row of `quota_usage_records` (Go `QuotaUsageModel`). -/
structure QuotaUsageModel where
  RecordID : Int
  QuotaID : Int
  TenantID : String
  OperationType : String
  DeltaValue : Int
  CurrentUsed : Int
  BizID : String
  BizType : String
  Operator : String
  OperationTime : Int
  ExpireTime : Int
  Remark : String
  deriving DecidableEq, Repr

/-- The two tables behind `r.data.db`. -/
structure DB where
  quotas : List QuotaModel
  usages : List QuotaUsageModel
  deriving DecidableEq, Repr

/-- Errors the repository returns. -/
inductive GoError where
  /-- Go `fmt.Errorf("quota not found")`. -/
  | quotaNotFound
  /-- Go `fmt.Errorf("quota exceeded: %d/%d", used, hard)`. -/
  | quotaExceeded (used hard : Int)
  /-- Any error reported by the store itself, with its text. -/
  | store (msg : String)
  deriving DecidableEq, Repr

/-- Go `err.Error()`. -/
def GoError.Error : GoError → String
  | .quotaNotFound => "quota not found"
  | .quotaExceeded used hard => "quota exceeded: " ++ toString used ++ "/" ++ toString hard
  | .store msg => msg

/-- What the store does on each call of one repository operation: the clock
reading and, per gorm call, the error it reports (`none`: the call succeeds). -/
structure Env where
  now : Int
  beginErr : Option String
  findErr : Option String
  findGlobalErr : Option String
  saveErr : Option String
  createErr : Option String
  commitErr : Option String
  deriving DecidableEq, Repr

/-- The store without any failure. -/
def Env.ok (now : Int) : Env :=
  { now := now, beginErr := none, findErr := none, findGlobalErr := none,
    saveErr := none, createErr := none, commitErr := none }

/-! ## gorm primitives -/

/-- Outcome of gorm `First`: a row, `ErrRecordNotFound`, or another error. -/
inductive Found where
  | row (model : QuotaModel)
  | notFound
  | failed (msg : String)
  deriving DecidableEq, Repr

/-- Go `query.First(&model)`: the matching row of least primary key. -/
def First (fault : Option String) (cond : QuotaModel → Bool) (rows : List QuotaModel) : Found :=
  match fault with
  | some msg => .failed msg
  | none =>
    match rows.find? cond with
    | some model => .row model
    | none => .notFound

/-- The condition `tenant_id = ? AND quota_type = ? AND limit_type = ?`, with
`JSON_CONTAINS(product_codes, "productCode")` added when a product code is given. -/
def tenantCond (tenantID : String) (quotaType : QuotaType) (limitType : LimitType)
    (productCode : String) (m : QuotaModel) : Bool :=
  decide (m.TenantID = tenantID) && decide (m.QuotaType = convertQuotaTypeToString quotaType)
    && decide (m.LimitType = convertLimitTypeToString limitType)
    && (decide (productCode = "") || m.ProductCodes.contains productCode)

/-- The condition `is_global = true AND quota_type = ? AND limit_type = ?`. -/
def globalCond (quotaType : QuotaType) (limitType : LimitType) (m : QuotaModel) : Bool :=
  m.IsGlobal && decide (m.QuotaType = convertQuotaTypeToString quotaType)
    && decide (m.LimitType = convertLimitTypeToString limitType)

/-- Go `tx.Save(&model)` on `tenant_quotas`: the row with the model's primary key
takes all the model's fields, `updated_at` being set to the clock. -/
def Save (now : Int) (model : QuotaModel) (rows : List QuotaModel) : List QuotaModel :=
  rows.map (fun r => if r.QuotaID = model.QuotaID then { model with UpdatedAt := now } else r)

/-- Primary key the store gives to the next usage row (auto-increment). -/
def nextRecordID (rows : List QuotaUsageModel) : Int :=
  rows.foldl (fun acc r => max acc r.RecordID) 0 + 1

/-- Go `tx.Create(usageRecord)`: the row is appended with a fresh primary key and
`operation_time` set to the clock. -/
def Create (now : Int) (rec : QuotaUsageModel) (rows : List QuotaUsageModel) :
    List QuotaUsageModel :=
  rows ++ [{ rec with RecordID := nextRecordID rows, OperationTime := now }]

/-- What a repository operation hands back: the Go results `(bool, int32, error)`
and the tables afterwards. -/
structure Outcome where
  success : Bool
  remainingQuota : Int
  err : Option GoError
  db : DB
  deriving DecidableEq, Repr

/-- Go `db.Transaction(fc)`: a failed begin runs nothing; an error of `fc` or of
the commit restores the tables, the closure's assignments to the captured
results stay. -/
def Transaction (env : Env) (db : DB) (fc : DB → Outcome) : Outcome :=
  match env.beginErr with
  | some msg => { success := false, remainingQuota := 0, err := some (.store msg), db := db }
  | none =>
    let out := fc db
    match out.err with
    | some _ => { out with db := db }
    | none =>
      match env.commitErr with
      | some msg => { out with err := some (.store msg), db := db }
      | none => out

/-! ## ConsumeQuota (`internal/data/quota.go`, lines 339-410) -/

/-- Lines 376-406: the capacity check, the write-back and the ledger entry, on the
locked row `model`. -/
def consumeLocked (env : Env) (tx : DB) (model : QuotaModel) (tenantID : String)
    (amount : Int) (bizID bizType : String) : Outcome :=
  if add32 model.UsedCount amount > model.HardLimit then
    { success := false, remainingQuota := sub32 model.HardLimit model.UsedCount,
      err := some (.quotaExceeded model.UsedCount model.HardLimit), db := tx }
  else
    let model := { model with UsedCount := add32 model.UsedCount amount }
    match env.saveErr with
    | some msg => { success := false, remainingQuota := 0, err := some (.store msg), db := tx }
    | none =>
      let tx := { tx with quotas := Save env.now model tx.quotas }
      let usageRecord : QuotaUsageModel :=
        { RecordID := 0, QuotaID := model.QuotaID, TenantID := tenantID,
          OperationType := convertOperationTypeToString OperationTypeConsume,
          DeltaValue := amount, CurrentUsed := model.UsedCount,
          BizID := bizID, BizType := bizType, Operator := "",
          OperationTime := 0, ExpireTime := 0, Remark := "" }
      match env.createErr with
      | some msg => { success := false, remainingQuota := 0, err := some (.store msg), db := tx }
      | none =>
        { success := true, remainingQuota := sub32 model.HardLimit model.UsedCount,
          err := none, db := { tx with usages := Create env.now usageRecord tx.usages } }

/-- The closure passed to `Transaction` by `ConsumeQuota` (lines 345-407). -/
def consumeTx (env : Env) (tenantID : String) (quotaType : QuotaType) (limitType : LimitType)
    (amount : Int) (productCode bizID bizType : String) (tx : DB) : Outcome :=
  match First env.findErr (tenantCond tenantID quotaType limitType productCode) tx.quotas with
  | .row model => consumeLocked env tx model tenantID amount bizID bizType
  | .failed msg => { success := false, remainingQuota := 0, err := some (.store msg), db := tx }
  | .notFound =>
    match First env.findGlobalErr (globalCond quotaType limitType) tx.quotas with
    | .row model => consumeLocked env tx model tenantID amount bizID bizType
    | .failed msg => { success := false, remainingQuota := 0, err := some (.store msg), db := tx }
    | .notFound =>
      { success := false, remainingQuota := 0, err := some .quotaNotFound, db := tx }

/-- Go `quotaRepo.ConsumeQuota`. -/
def ConsumeQuota (env : Env) (db : DB) (tenantID : String) (quotaType : QuotaType)
    (limitType : LimitType) (amount : Int) (productCode bizID bizType : String) : Outcome :=
  Transaction env db (consumeTx env tenantID quotaType limitType amount productCode bizID bizType)

/-! ## ReleaseQuota (`internal/data/quota.go`, lines 412-471) -/

/-- Lines 440-467: the clamped decrement, the write-back and the ledger entry, on
the locked row `model`. -/
def releaseLocked (env : Env) (tx : DB) (model : QuotaModel) (tenantID : String)
    (amount : Int) (bizID : String) : Outcome :=
  let model :=
    if model.UsedCount < amount then { model with UsedCount := 0 }
    else { model with UsedCount := sub32 model.UsedCount amount }
  match env.saveErr with
  | some msg => { success := false, remainingQuota := 0, err := some (.store msg), db := tx }
  | none =>
    let tx := { tx with quotas := Save env.now model tx.quotas }
    let usageRecord : QuotaUsageModel :=
      { RecordID := 0, QuotaID := model.QuotaID, TenantID := tenantID,
        OperationType := convertOperationTypeToString OperationTypeRelease,
        DeltaValue := neg32 amount, CurrentUsed := model.UsedCount,
        BizID := bizID, BizType := "", Operator := "",
        OperationTime := 0, ExpireTime := 0, Remark := "" }
    match env.createErr with
    | some msg => { success := false, remainingQuota := 0, err := some (.store msg), db := tx }
    | none =>
      { success := true, remainingQuota := sub32 model.HardLimit model.UsedCount,
        err := none, db := { tx with usages := Create env.now usageRecord tx.usages } }

/-- The closure passed to `Transaction` by `ReleaseQuota` (lines 418-468). -/
def releaseTx (env : Env) (tenantID : String) (quotaType : QuotaType) (limitType : LimitType)
    (amount : Int) (productCode bizID : String) (tx : DB) : Outcome :=
  match First env.findErr (tenantCond tenantID quotaType limitType productCode) tx.quotas with
  | .row model => releaseLocked env tx model tenantID amount bizID
  | .failed msg => { success := false, remainingQuota := 0, err := some (.store msg), db := tx }
  | .notFound => { success := false, remainingQuota := 0, err := some .quotaNotFound, db := tx }

/-- Go `quotaRepo.ReleaseQuota`. -/
def ReleaseQuota (env : Env) (db : DB) (tenantID : String) (quotaType : QuotaType)
    (limitType : LimitType) (amount : Int) (productCode bizID : String) : Outcome :=
  Transaction env db (releaseTx env tenantID quotaType limitType amount productCode bizID)

/-! ## vocabulary of the statements -/

/-- The row `ConsumeQuota` locks for a key: the first tenant match, and when there
is none the first global row (lines 356-374). -/
def ConsumeResolves (env : Env) (db : DB) (tenantID : String) (quotaType : QuotaType)
    (limitType : LimitType) (productCode : String) (m : QuotaModel) : Prop :=
  First env.findErr (tenantCond tenantID quotaType limitType productCode) db.quotas = .row m ∨
  (First env.findErr (tenantCond tenantID quotaType limitType productCode) db.quotas = .notFound ∧
    First env.findGlobalErr (globalCond quotaType limitType) db.quotas = .row m)

instance (env : Env) (db : DB) (tenantID : String) (quotaType : QuotaType)
    (limitType : LimitType) (productCode : String) (m : QuotaModel) :
    Decidable (ConsumeResolves env db tenantID quotaType limitType productCode m) := by
  unfold ConsumeResolves; infer_instance

/-- The row `ReleaseQuota` locks for a key: the first tenant match (lines 429-438). -/
def ReleaseResolves (env : Env) (db : DB) (tenantID : String) (quotaType : QuotaType)
    (limitType : LimitType) (productCode : String) (m : QuotaModel) : Prop :=
  First env.findErr (tenantCond tenantID quotaType limitType productCode) db.quotas = .row m

instance (env : Env) (db : DB) (tenantID : String) (quotaType : QuotaType)
    (limitType : LimitType) (productCode : String) (m : QuotaModel) :
    Decidable (ReleaseResolves env db tenantID quotaType limitType productCode m) := by
  unfold ReleaseResolves; infer_instance

/-- The stored row with a given primary key. -/
def stored (db : DB) (quotaID : Int) : Option QuotaModel :=
  db.quotas.find? (fun r => decide (r.QuotaID = quotaID))

/-- A store with the single tenant row `{hardLimit, usedCount}` and an empty ledger. -/
def sampleRow (hardLimit usedCount : Int) : QuotaModel :=
  { QuotaID := 1, TenantID := "t1", QuotaType := "SMS", LimitType := "DAILY",
    HardLimit := hardLimit, SoftLimit := 0, UsedCount := usedCount, ResetTime := 0,
    NextResetTime := 0, EffectiveTime := 0, ExpireTime := 0, IsGlobal := false,
    ProductCodes := [], ExtraConfig := "", CreatedBy := "", CreatedAt := 0, UpdatedAt := 0 }

/-- The store holding `sampleRow hardLimit usedCount` only. -/
def sampleDB (hardLimit usedCount : Int) : DB :=
  { quotas := [sampleRow hardLimit usedCount], usages := [] }

/-! ## calls applied one after another -/

/-- The outcomes, in call order, of `ConsumeQuota` calls for one key applied one
after another with the given amounts, each on the tables the previous one left. -/
def consumeEach (env : Env) (tenantID : String) (quotaType : QuotaType) (limitType : LimitType)
    (productCode bizID bizType : String) : DB → List Int → List Outcome
  | _, [] => []
  | db, amount :: rest =>
    ConsumeQuota env db tenantID quotaType limitType amount productCode bizID bizType ::
      consumeEach env tenantID quotaType limitType productCode bizID bizType
        (ConsumeQuota env db tenantID quotaType limitType amount productCode bizID bizType).db rest

/-- Integer sum of the amounts of those calls that succeeded. -/
def consumedSum : List Int → List Outcome → Int
  | amount :: amounts, out :: outs =>
    (if out.success = true then amount else 0) + consumedSum amounts outs
  | _, _ => 0

/-! ## GetQuota (`internal/data/quota.go`, lines 164-261) -/

/-- Go `biz.QuotaInfo` (`internal/biz/quota.go`, lines 41-57). -/
structure QuotaInfo where
  QuotaID : Int
  TenantID : String
  QuotaType : QuotaType
  LimitType : LimitType
  HardLimit : Int
  SoftLimit : Int
  UsedCount : Int
  ResetTime : Int
  NextResetTime : Int
  EffectiveTime : Int
  ExpireTime : Int
  IsGlobal : Bool
  ProductCodes : List String
  ExtraConfig : String
  deriving DecidableEq, Repr

/-- Go `quotaRepo.convertModelToBiz` on a row; the column `product_codes` holds the
array that `CreateQuota` and `UpdateQuota` marshal, which `json.Unmarshal` decodes
without error. -/
def convertModelToBiz (model : QuotaModel) : QuotaInfo :=
  { QuotaID := model.QuotaID
    TenantID := model.TenantID
    QuotaType := convertQuotaTypeToEnum model.QuotaType
    LimitType := convertLimitTypeToEnum model.LimitType
    HardLimit := model.HardLimit
    SoftLimit := model.SoftLimit
    UsedCount := model.UsedCount
    ResetTime := model.ResetTime
    NextResetTime := model.NextResetTime
    EffectiveTime := model.EffectiveTime
    ExpireTime := model.ExpireTime
    IsGlobal := model.IsGlobal
    ProductCodes := model.ProductCodes
    ExtraConfig := model.ExtraConfig }

/-- Go results `(*biz.QuotaInfo, error)` of `GetQuota`, and the tables afterwards. -/
structure GetOutcome where
  quota : Option QuotaInfo
  err : Option GoError
  db : DB
  deriving DecidableEq, Repr

/-- Go `quotaRepo.GetQuota`: two `First` queries, no write. -/
def GetQuota (env : Env) (db : DB) (tenantID : String) (quotaType : QuotaType)
    (limitType : LimitType) (productCode : String) : GetOutcome :=
  match First env.findErr (tenantCond tenantID quotaType limitType productCode) db.quotas with
  | .row model => { quota := some (convertModelToBiz model), err := none, db := db }
  | .failed msg => { quota := none, err := some (.store msg), db := db }
  | .notFound =>
    match First env.findGlobalErr (globalCond quotaType limitType) db.quotas with
    | .row model => { quota := some (convertModelToBiz model), err := none, db := db }
    | .failed msg => { quota := none, err := some (.store msg), db := db }
    | .notFound => { quota := none, err := none, db := db }

/-! ## CheckQuota (`internal/biz/quota.go`, lines 101-118) -/

/-- Go results `(*QuotaInfo, bool, int32, error)` of `CheckQuota`, and the tables
afterwards. -/
structure CheckOutcome where
  quota : Option QuotaInfo
  hasQuota : Bool
  available : Int
  err : Option GoError
  db : DB
  deriving DecidableEq, Repr

/-- Go `QuotaUsecase.CheckQuota`. -/
def CheckQuota (env : Env) (db : DB) (tenantID : String) (quotaType : QuotaType)
    (limitType : LimitType) (productCode : String) : CheckOutcome :=
  let got := GetQuota env db tenantID quotaType limitType productCode
  match got.err with
  | some e => { quota := none, hasQuota := false, available := 0, err := some e, db := got.db }
  | none =>
    match got.quota with
    | none => { quota := none, hasQuota := false, available := 0, err := none, db := got.db }
    | some quota =>
      let available := sub32 quota.HardLimit quota.UsedCount
      { quota := some quota, hasQuota := decide (available > 0), available := available,
        err := none, db := got.db }

/-- A row matches a key: tenant, quota type and limit type are those of the key and,
when a product code is given, the row's product codes hold it. -/
def TenantMatch (tenantID : String) (quotaType : QuotaType) (limitType : LimitType)
    (productCode : String) (r : QuotaModel) : Prop :=
  r.TenantID = tenantID ∧ r.QuotaType = convertQuotaTypeToString quotaType ∧
    r.LimitType = convertLimitTypeToString limitType ∧
    (productCode ≠ "" → productCode ∈ r.ProductCodes)

instance (tenantID : String) (quotaType : QuotaType) (limitType : LimitType)
    (productCode : String) (r : QuotaModel) :
    Decidable (TenantMatch tenantID quotaType limitType productCode r) := by
  unfold TenantMatch; infer_instance

/-- A row is a global default for a quota type and limit type. -/
def GlobalMatch (quotaType : QuotaType) (limitType : LimitType) (r : QuotaModel) : Prop :=
  r.IsGlobal = true ∧ r.QuotaType = convertQuotaTypeToString quotaType ∧
    r.LimitType = convertLimitTypeToString limitType

instance (quotaType : QuotaType) (limitType : LimitType) (r : QuotaModel) :
    Decidable (GlobalMatch quotaType limitType r) := by
  unfold GlobalMatch; infer_instance

/-- The lookup of the Resolver as the specification words it (section 4.1): the
first row matching tenant, quota type, limit type and, when a product code is
given, holding that code; when there is none, the first row with
`isGlobal = true` and the same quota type and limit type. -/
def resolveReference (rows : List QuotaModel) (tenantID : String) (quotaType : QuotaType)
    (limitType : LimitType) (productCode : String) : Option QuotaModel :=
  match rows.find? (fun r => decide (TenantMatch tenantID quotaType limitType productCode r)) with
  | some r => some r
  | none => rows.find? (fun r => decide (GlobalMatch quotaType limitType r))

/-- The check operation as the specification words it (section 4.2): no record
gives `(none, false, 0)`; a record gives `availableCount = hardLimit - usedCount`
(an int32 value) and `hasCapacity = (availableCount > 0)`. -/
def checkReference (rows : List QuotaModel) (tenantID : String) (quotaType : QuotaType)
    (limitType : LimitType) (productCode : String) : Option QuotaInfo × Bool × Int :=
  match resolveReference rows tenantID quotaType limitType productCode with
  | none => (none, false, 0)
  | some r =>
    (some (convertModelToBiz r), decide (sub32 r.HardLimit r.UsedCount > 0),
      sub32 r.HardLimit r.UsedCount)

/-! ## ResetQuotas (`internal/data/quota.go`, lines 473-520) -/

/-- The errors of the store calls made inside the loop of `ResetQuotas`: of the
`k`-th `Save` and of the `k`-th `Create`, counted from 0 (`none`: the call
succeeds). -/
structure LoopFaults where
  saveErrAt : Nat → Option String
  createErrAt : Nat → Option String

/-- A loop in which every store call succeeds. -/
def LoopFaults.ok : LoopFaults :=
  { saveErrAt := fun _ => none, createErrAt := fun _ => none }

/-- Lines 486-496: the counter is zeroed, `ResetTime` is the clock, and
`NextResetTime` is `time.Now().AddDate(...)` for the daily and the monthly limit
type. `addDate years months days t` stands for Go's `t.AddDate(years, months, days)`. -/
def resetModel (now : Int) (addDate : Int → Int → Int → Int → Int) (limitType : LimitType)
    (model : QuotaModel) : QuotaModel :=
  let model := { model with UsedCount := 0, ResetTime := now }
  if limitType = LimitTypeDaily then { model with NextResetTime := addDate 0 0 1 now }
  else if limitType = LimitTypeMonthly then { model with NextResetTime := addDate 0 1 0 now }
  else model

/-- Lines 485-518: the loop over the due rows inside the transaction; `k` counts the
rows already handled. The closure has no captured results, the fields `success`
and `remainingQuota` of its outcome stay at their zero values. -/
def resetLoop (env : Env) (addDate : Int → Int → Int → Int → Int) (faults : LoopFaults)
    (limitType : LimitType) : Nat → List QuotaModel → DB → Outcome
  | _, [], tx => { success := false, remainingQuota := 0, err := none, db := tx }
  | k, model :: rest, tx =>
    let model := resetModel env.now addDate limitType model
    match faults.saveErrAt k with
    | some msg => { success := false, remainingQuota := 0, err := some (.store msg), db := tx }
    | none =>
      let tx := { tx with quotas := Save env.now model tx.quotas }
      let usageRecord : QuotaUsageModel :=
        { RecordID := 0, QuotaID := model.QuotaID, TenantID := model.TenantID,
          OperationType := "RESET", DeltaValue := neg32 model.UsedCount, CurrentUsed := 0,
          BizID := "", BizType := "", Operator := "", OperationTime := 0, ExpireTime := 0,
          Remark := "Scheduled reset for " ++ convertLimitTypeToString limitType ++ " quota" }
      match faults.createErrAt k with
      | some msg => { success := false, remainingQuota := 0, err := some (.store msg), db := tx }
      | none =>
        resetLoop env addDate faults limitType (k + 1) rest
          { tx with usages := Create env.now usageRecord tx.usages }

/-- The condition `limit_type = ? AND next_reset_time <= ?` of line 477. -/
def dueCond (now : Int) (limitType : LimitType) (m : QuotaModel) : Bool :=
  decide (m.LimitType = convertLimitTypeToString limitType) && decide (m.NextResetTime ≤ now)

/-- Go result `error` of `ResetQuotas`, and the tables afterwards. -/
structure ResetOutcome where
  err : Option GoError
  db : DB

/-- Go `quotaRepo.ResetQuotas`. -/
def ResetQuotas (env : Env) (addDate : Int → Int → Int → Int → Int) (faults : LoopFaults)
    (db : DB) (limitType : LimitType) : ResetOutcome :=
  match env.findErr with
  | some msg => { err := some (.store msg), db := db }
  | none =>
    let models := db.quotas.filter (dueCond env.now limitType)
    let out := Transaction env db (resetLoop env addDate faults limitType 0 models)
    { err := out.err, db := out.db }

/-- One day in seconds. -/
def oneDay : Int := 86400

/-- Go `AddDate` of a clock in UTC counted in seconds, for steps of whole days
(`years = months = 0`). -/
def addDateUTC (_years _months days t : Int) : Int := t + days * oneDay

/-! ## the use-case layer (`internal/biz/quota.go`, lines 120-130) -/

/-- Go `QuotaUsecase.ConsumeQuota`: the repository call. -/
def QuotaUsecase.ConsumeQuota (env : Env) (db : DB) (tenantID : String) (quotaType : QuotaType)
    (limitType : LimitType) (amount : Int) (productCode bizID bizType : String) : Outcome :=
  TenantService.ConsumeQuota env db tenantID quotaType limitType amount productCode bizID bizType

/-- Go `QuotaUsecase.ReleaseQuota`: the repository call. -/
def QuotaUsecase.ReleaseQuota (env : Env) (db : DB) (tenantID : String) (quotaType : QuotaType)
    (limitType : LimitType) (amount : Int) (productCode bizID : String) : Outcome :=
  TenantService.ReleaseQuota env db tenantID quotaType limitType amount productCode bizID

/-! ## the facade (`internal/service/tenant.go`) -/

/-- The values of the generated protobuf enum constants the facade switches on. -/
structure PbEnums where
  QuotaType_QUOTA_TYPE_MARKETING_CAMPAIGN : Int
  QuotaType_QUOTA_TYPE_REDEEM_CODE : Int
  QuotaType_QUOTA_TYPE_SMS : Int
  LimitType_LIMIT_TYPE_DAILY : Int
  LimitType_LIMIT_TYPE_MONTHLY : Int
  LimitType_LIMIT_TYPE_TOTAL : Int
  LimitType_LIMIT_TYPE_CONCURRENT : Int

/-- Go `service.convertQuotaTypeToEnum` (lines 62-74). -/
def Service.convertQuotaTypeToEnum (pb : PbEnums) (quotaType : Int) : QuotaType :=
  if quotaType = pb.QuotaType_QUOTA_TYPE_MARKETING_CAMPAIGN then QuotaTypeMarketingCampaign
  else if quotaType = pb.QuotaType_QUOTA_TYPE_REDEEM_CODE then QuotaTypeRedeemCode
  else if quotaType = pb.QuotaType_QUOTA_TYPE_SMS then QuotaTypeSMS
  else QuotaTypeUnspecified

/-- Go `service.convertLimitTypeToEnum` (lines 76-90). -/
def Service.convertLimitTypeToEnum (pb : PbEnums) (limitType : Int) : LimitType :=
  if limitType = pb.LimitType_LIMIT_TYPE_DAILY then LimitTypeDaily
  else if limitType = pb.LimitType_LIMIT_TYPE_MONTHLY then LimitTypeMonthly
  else if limitType = pb.LimitType_LIMIT_TYPE_TOTAL then LimitTypeTotal
  else if limitType = pb.LimitType_LIMIT_TYPE_CONCURRENT then LimitTypeConcurrent
  else LimitTypeUnspecified

/-- Go `pb.ConsumeQuotaRequest`; `pb.ReleaseQuotaRequest` has the same fields but
`BizType`. -/
structure QuotaRequest where
  TenantId : String
  QuotaType : Int
  LimitType : Int
  Amount : Int
  ProductCode : String
  BizId : String
  BizType : String
  deriving DecidableEq, Repr

/-- Go `pb.ConsumeQuotaReply` and `pb.ReleaseQuotaReply`. -/
structure QuotaReply where
  Success : Bool
  RemainingQuota : Int
  Message : String
  deriving DecidableEq, Repr

/-- Go results `(*Reply, error)` of a handler, and the tables afterwards. -/
structure HandlerOutcome where
  reply : Option QuotaReply
  rpcErr : Option GoError
  db : DB

/-- Go `TenantService.ConsumeQuota` (lines 293-320). -/
def Service.ConsumeQuota (pb : PbEnums) (env : Env) (db : DB) (req : QuotaRequest) :
    HandlerOutcome :=
  let out := QuotaUsecase.ConsumeQuota env db req.TenantId
    (Service.convertQuotaTypeToEnum pb req.QuotaType)
    (Service.convertLimitTypeToEnum pb req.LimitType)
    req.Amount req.ProductCode req.BizId req.BizType
  let message := match out.err with
    | some err => err.Error
    | none => ""
  { reply := some { Success := out.success, RemainingQuota := out.remainingQuota,
                    Message := message },
    rpcErr := none, db := out.db }

/-- Go `TenantService.ReleaseQuota` (lines 322-348). -/
def Service.ReleaseQuota (pb : PbEnums) (env : Env) (db : DB) (req : QuotaRequest) :
    HandlerOutcome :=
  let out := QuotaUsecase.ReleaseQuota env db req.TenantId
    (Service.convertQuotaTypeToEnum pb req.QuotaType)
    (Service.convertLimitTypeToEnum pb req.LimitType)
    req.Amount req.ProductCode req.BizId
  let message := match out.err with
    | some err => err.Error
    | none => ""
  { reply := some { Success := out.success, RemainingQuota := out.remainingQuota,
                    Message := message },
    rpcErr := none, db := out.db }

/-- The protobuf numbering used in the examples. -/
def samplePb : PbEnums :=
  { QuotaType_QUOTA_TYPE_MARKETING_CAMPAIGN := 1, QuotaType_QUOTA_TYPE_REDEEM_CODE := 2,
    QuotaType_QUOTA_TYPE_SMS := 3, LimitType_LIMIT_TYPE_DAILY := 1,
    LimitType_LIMIT_TYPE_MONTHLY := 2, LimitType_LIMIT_TYPE_TOTAL := 3,
    LimitType_LIMIT_TYPE_CONCURRENT := 4 }

/-- A global default row `{hardLimit, usedCount}`, bound to no tenant. -/
def globalRow (hardLimit usedCount : Int) : QuotaModel :=
  { sampleRow hardLimit usedCount with QuotaID := 2, TenantID := "", IsGlobal := true }

/-- The store holding `globalRow hardLimit usedCount` only. -/
def globalDB (hardLimit usedCount : Int) : DB :=
  { quotas := [globalRow hardLimit usedCount], usages := [] }

/-- Loop faults of the example: the append of the second reset entry fails. -/
def secondAppendFails : LoopFaults :=
  { saveErrAt := fun _ => none
    createErrAt := fun k => if k = 1 then some "insert failed" else none }

/-! ## the declared enum constants (`internal/biz/quota.go`, lines 13-39) -/

/-- The constants declared for `QuotaType`. -/
def quotaTypeValues : List QuotaType :=
  [QuotaTypeUnspecified, QuotaTypeMarketingCampaign, QuotaTypeRedeemCode, QuotaTypeSMS]

/-- The constants declared for `LimitType`. -/
def limitTypeValues : List LimitType :=
  [LimitTypeUnspecified, LimitTypeDaily, LimitTypeMonthly, LimitTypeTotal, LimitTypeConcurrent]

/-- The constants declared for `OperationType`. -/
def operationTypeValues : List OperationType :=
  [OperationTypeUnspecified, OperationTypeConsume, OperationTypeRelease, OperationTypeAdjust]

/-! ## int32 lemmas -/

theorem wrap32_of_isInt32 {x : Int} (h : isInt32 x) : wrap32 x = x := by
  unfold isInt32 minInt32 maxInt32 at h
  unfold wrap32
  omega

theorem wrap32_isInt32 (x : Int) : isInt32 (wrap32 x) := by
  unfold isInt32 minInt32 maxInt32 wrap32
  omega

/-! ## store lemmas -/

theorem First_row_mem {fault : Option String} {cond : QuotaModel → Bool}
    {rows : List QuotaModel} {m : QuotaModel} (h : First fault cond rows = .row m) :
    m ∈ rows ∧ cond m = true ∧ fault = none := by
  unfold First at h
  cases fault with
  | some msg => simp at h
  | none =>
    simp only at h
    cases hf : rows.find? cond with
    | none => simp [hf] at h
    | some r =>
      simp only [hf, Found.row.injEq] at h
      subst h
      exact ⟨List.mem_of_find?_eq_some hf, List.find?_some hf, rfl⟩

theorem stored_Save (now : Int) (m : QuotaModel) (rows : List QuotaModel) (usages : List QuotaUsageModel)
    (h : ∃ r ∈ rows, r.QuotaID = m.QuotaID) :
    stored { quotas := Save now m rows, usages := usages } m.QuotaID
      = some { m with UpdatedAt := now } := by
  unfold stored Save
  simp only
  induction rows with
  | nil => simp at h
  | cons r rs ih =>
    by_cases hr : r.QuotaID = m.QuotaID
    · simp [List.find?, hr]
    · have h2 : ∃ r ∈ rs, r.QuotaID = m.QuotaID := by
        obtain ⟨x, hx, hxid⟩ := h
        rcases List.mem_cons.mp hx with rfl | hx
        · exact absurd hxid hr
        · exact ⟨x, hx, hxid⟩
      simp [List.find?, hr, ih h2]

/-! ## the paths of ConsumeQuota and ReleaseQuota -/

theorem consumeTx_resolved {env : Env} {db : DB} {tenantID : String} {quotaType : QuotaType}
    {limitType : LimitType} {productCode : String} {m : QuotaModel}
    (hres : ConsumeResolves env db tenantID quotaType limitType productCode m)
    (amount : Int) (bizID bizType : String) :
    consumeTx env tenantID quotaType limitType amount productCode bizID bizType db
      = consumeLocked env db m tenantID amount bizID bizType := by
  unfold consumeTx
  rcases hres with h | ⟨h1, h2⟩
  · rw [h]
  · rw [h1]; simp only; rw [h2]

theorem releaseTx_resolved {env : Env} {db : DB} {tenantID : String} {quotaType : QuotaType}
    {limitType : LimitType} {productCode : String} {m : QuotaModel}
    (hres : ReleaseResolves env db tenantID quotaType limitType productCode m)
    (amount : Int) (bizID : String) :
    releaseTx env tenantID quotaType limitType amount productCode bizID db
      = releaseLocked env db m tenantID amount bizID := by
  unfold releaseTx
  unfold ReleaseResolves at hres
  rw [hres]

/-- A transaction that returns no error ran its closure without error and committed. -/
theorem Transaction_err_none {env : Env} {db : DB} {fc : DB → Outcome}
    (h : (Transaction env db fc).err = none) :
    (fc db).err = none ∧ Transaction env db fc = fc db := by
  unfold Transaction at h ⊢
  cases hb : env.beginErr with
  | some msg => simp [hb] at h
  | none =>
    simp only [hb] at h ⊢
    cases he : (fc db).err with
    | some e => simp [he] at h
    | none =>
      simp only [he] at h ⊢
      cases hc : env.commitErr with
      | some msg => simp [hc] at h
      | none => simp

/-- The closure of `ConsumeQuota` returns no error only on its last line. -/
theorem consumeTx_err_none {env : Env} {db : DB} {tenantID : String} {quotaType : QuotaType}
    {limitType : LimitType} {amount : Int} {productCode bizID bizType : String}
    (h : (consumeTx env tenantID quotaType limitType amount productCode bizID bizType db).err = none) :
    ∃ m, ConsumeResolves env db tenantID quotaType limitType productCode m ∧
      add32 m.UsedCount amount ≤ m.HardLimit ∧
      consumeTx env tenantID quotaType limitType amount productCode bizID bizType db =
        { success := true
          remainingQuota := sub32 m.HardLimit (add32 m.UsedCount amount)
          err := none
          db :=
            { quotas := Save env.now { m with UsedCount := add32 m.UsedCount amount } db.quotas
              usages := Create env.now
                { RecordID := 0, QuotaID := m.QuotaID, TenantID := tenantID,
                  OperationType := "CONSUME", DeltaValue := amount,
                  CurrentUsed := add32 m.UsedCount amount, BizID := bizID, BizType := bizType,
                  Operator := "", OperationTime := 0, ExpireTime := 0, Remark := "" }
                db.usages } } := by
  have key : ∀ m, (consumeLocked env db m tenantID amount bizID bizType).err = none →
      add32 m.UsedCount amount ≤ m.HardLimit ∧
      consumeLocked env db m tenantID amount bizID bizType =
        { success := true
          remainingQuota := sub32 m.HardLimit (add32 m.UsedCount amount)
          err := none
          db :=
            { quotas := Save env.now { m with UsedCount := add32 m.UsedCount amount } db.quotas
              usages := Create env.now
                { RecordID := 0, QuotaID := m.QuotaID, TenantID := tenantID,
                  OperationType := "CONSUME", DeltaValue := amount,
                  CurrentUsed := add32 m.UsedCount amount, BizID := bizID, BizType := bizType,
                  Operator := "", OperationTime := 0, ExpireTime := 0, Remark := "" }
                db.usages } } := by
    intro m hm
    unfold consumeLocked at hm ⊢
    by_cases hgt : add32 m.UsedCount amount > m.HardLimit
    · simp [hgt] at hm
    · simp only [hgt, if_false] at hm ⊢
      cases hs : env.saveErr with
      | some msg => simp [hs] at hm
      | none =>
        simp only [hs] at hm ⊢
        cases hc : env.createErr with
        | some msg => simp [hc] at hm
        | none =>
          refine ⟨by omega, ?_⟩
          rfl
  cases h1 : First env.findErr (tenantCond tenantID quotaType limitType productCode) db.quotas with
  | row m =>
    have hres : ConsumeResolves env db tenantID quotaType limitType productCode m := Or.inl h1
    rw [consumeTx_resolved hres] at h ⊢
    exact ⟨m, hres, key m h⟩
  | failed msg => simp [consumeTx, h1] at h
  | notFound =>
    cases h2 : First env.findGlobalErr (globalCond quotaType limitType) db.quotas with
    | row m =>
      have hres : ConsumeResolves env db tenantID quotaType limitType productCode m :=
        Or.inr ⟨h1, h2⟩
      rw [consumeTx_resolved hres] at h ⊢
      exact ⟨m, hres, key m h⟩
    | failed msg => simp [consumeTx, h1, h2] at h
    | notFound => simp [consumeTx, h1, h2] at h

/-- The closure of `ReleaseQuota` returns no error only on its last line. -/
theorem releaseTx_err_none {env : Env} {db : DB} {tenantID : String} {quotaType : QuotaType}
    {limitType : LimitType} {amount : Int} {productCode bizID : String}
    (h : (releaseTx env tenantID quotaType limitType amount productCode bizID db).err = none) :
    ∃ m, ReleaseResolves env db tenantID quotaType limitType productCode m ∧
      releaseTx env tenantID quotaType limitType amount productCode bizID db =
        { success := true
          remainingQuota := sub32 m.HardLimit
            (if m.UsedCount < amount then 0 else sub32 m.UsedCount amount)
          err := none
          db :=
            { quotas := Save env.now
                { m with UsedCount := if m.UsedCount < amount then 0 else sub32 m.UsedCount amount }
                db.quotas
              usages := Create env.now
                { RecordID := 0, QuotaID := m.QuotaID, TenantID := tenantID,
                  OperationType := "RELEASE", DeltaValue := neg32 amount,
                  CurrentUsed := if m.UsedCount < amount then 0 else sub32 m.UsedCount amount,
                  BizID := bizID, BizType := "",
                  Operator := "", OperationTime := 0, ExpireTime := 0, Remark := "" }
                db.usages } } := by
  cases h1 : First env.findErr (tenantCond tenantID quotaType limitType productCode) db.quotas with
  | row m =>
    have hres : ReleaseResolves env db tenantID quotaType limitType productCode m := h1
    rw [releaseTx_resolved hres] at h ⊢
    refine ⟨m, hres, ?_⟩
    unfold releaseLocked at h ⊢
    cases hs : env.saveErr with
    | some msg => simp [hs] at h
    | none =>
      simp only [hs] at h ⊢
      cases hc : env.createErr with
      | some msg => simp [hc] at h
      | none =>
        by_cases hlt : m.UsedCount < amount
        · simp only [hlt, if_true]; rfl
        · simp only [hlt, if_false]; rfl
  | failed msg => simp [releaseTx, h1] at h
  | notFound => simp [releaseTx, h1] at h

/-! ## ConsumeQuota: the capacity check -/

/-- C1 (code bug): the capacity check `model.UsedCount+amount > model.HardLimit` is
computed in int32. On the row `{hardLimit = 2147483647, usedCount = 1}` and
`amount = 2147483647` the integer sum 2147483648 exceeds the hard limit, yet the
wrapped sum is negative: the call succeeds, stores `usedCount = -2147483648`,
returns `remaining = -1` and appends a ledger entry. -/
theorem consumeQuota_check_wraps_int32 :
    (sampleRow 2147483647 1).UsedCount + 2147483647 > (sampleRow 2147483647 1).HardLimit ∧
    ConsumeResolves (Env.ok 0) (sampleDB 2147483647 1) "t1" QuotaTypeSMS LimitTypeDaily ""
      (sampleRow 2147483647 1) ∧
    (ConsumeQuota (Env.ok 0) (sampleDB 2147483647 1) "t1" QuotaTypeSMS LimitTypeDaily
      2147483647 "" "biz-1" "order").success = true ∧
    (ConsumeQuota (Env.ok 0) (sampleDB 2147483647 1) "t1" QuotaTypeSMS LimitTypeDaily
      2147483647 "" "biz-1" "order").err = none ∧
    (ConsumeQuota (Env.ok 0) (sampleDB 2147483647 1) "t1" QuotaTypeSMS LimitTypeDaily
      2147483647 "" "biz-1" "order").remainingQuota = -1 ∧
    (stored (ConsumeQuota (Env.ok 0) (sampleDB 2147483647 1) "t1" QuotaTypeSMS LimitTypeDaily
      2147483647 "" "biz-1" "order").db 1).map (fun r => r.UsedCount) = some (-2147483648) ∧
    (ConsumeQuota (Env.ok 0) (sampleDB 2147483647 1) "t1" QuotaTypeSMS LimitTypeDaily
      2147483647 "" "biz-1" "order").db.usages.length = 1 := by
  refine ⟨by decide, by decide, by decide, by decide, by decide, by decide, by decide⟩

/-- Where the int32 sum cannot wrap, the check is the integer comparison: a consume
with `usedCount + amount > hardLimit` on a locked row is refused with the
quota-exceeded error, `remaining = hardLimit - usedCount`, tables untouched. -/
theorem consumeQuota_exceeded_of_no_wrap (env : Env) (db : DB) (tenantID : String)
    (quotaType : QuotaType) (limitType : LimitType) (amount : Int)
    (productCode bizID bizType : String) (m : QuotaModel)
    (hbegin : env.beginErr = none)
    (hres : ConsumeResolves env db tenantID quotaType limitType productCode m)
    (hsum : isInt32 (m.UsedCount + amount)) (hrem : isInt32 (m.HardLimit - m.UsedCount))
    (hgt : m.UsedCount + amount > m.HardLimit) :
    ConsumeQuota env db tenantID quotaType limitType amount productCode bizID bizType =
      { success := false, remainingQuota := m.HardLimit - m.UsedCount,
        err := some (.quotaExceeded m.UsedCount m.HardLimit), db := db } := by
  unfold ConsumeQuota Transaction
  rw [consumeTx_resolved hres]
  have h1 : add32 m.UsedCount amount > m.HardLimit := by
    unfold add32; rw [wrap32_of_isInt32 hsum]; exact hgt
  simp [hbegin, consumeLocked, h1, sub32, wrap32_of_isInt32 hrem]

theorem consumeQuota_exceeded_of_no_wrap_witness :
    ConsumeQuota (Env.ok 0) (sampleDB 100 95) "t1" QuotaTypeSMS LimitTypeDaily 10 "" "b" "o" =
      { success := false, remainingQuota := 5,
        err := some (.quotaExceeded 95 100), db := sampleDB 100 95 } :=
  consumeQuota_exceeded_of_no_wrap (Env.ok 0) (sampleDB 100 95) "t1" QuotaTypeSMS LimitTypeDaily
    10 "" "b" "o" (sampleRow 100 95) rfl (by decide) (by decide) (by decide) (by decide)

/-! ## ConsumeQuota: the successful path -/

/-- C2: when the locked row passes the check `usedCount + amount <= hardLimit` (the
int32 sum the code compares) and the store reports no failure, `ConsumeQuota`
returns `success = true` without error, the stored row is the locked row with
`usedCount` increased by `amount` (int32 addition), and `remaining` is
`hardLimit - usedCount(after)` (int32 subtraction). When moreover
`0 <= usedCount`, `0 <= amount` and the integer sum is at most an int32
`hardLimit`, both are the integer sum and the integer difference. -/
theorem consumeQuota_success (now : Int) (db : DB) (tenantID : String)
    (quotaType : QuotaType) (limitType : LimitType) (amount : Int)
    (productCode bizID bizType : String) (m : QuotaModel)
    (hres : ConsumeResolves (Env.ok now) db tenantID quotaType limitType productCode m)
    (hle : add32 m.UsedCount amount ≤ m.HardLimit) :
    (ConsumeQuota (Env.ok now) db tenantID quotaType limitType amount productCode bizID
      bizType).success = true ∧
    (ConsumeQuota (Env.ok now) db tenantID quotaType limitType amount productCode bizID
      bizType).err = none ∧
    stored (ConsumeQuota (Env.ok now) db tenantID quotaType limitType amount productCode bizID
      bizType).db m.QuotaID
      = some { m with UsedCount := add32 m.UsedCount amount, UpdatedAt := now } ∧
    (ConsumeQuota (Env.ok now) db tenantID quotaType limitType amount productCode bizID
      bizType).remainingQuota = sub32 m.HardLimit (add32 m.UsedCount amount) ∧
    (isInt32 m.HardLimit → 0 ≤ m.UsedCount → 0 ≤ amount →
      m.UsedCount + amount ≤ m.HardLimit →
      add32 m.UsedCount amount = m.UsedCount + amount ∧
      sub32 m.HardLimit (add32 m.UsedCount amount) = m.HardLimit - (m.UsedCount + amount)) := by
  have hmem : m ∈ db.quotas := by
    rcases hres with h | ⟨_, h⟩
    · exact (First_row_mem h).1
    · exact (First_row_mem h).1
  have hng : ¬ add32 m.UsedCount amount > m.HardLimit := by omega
  have hout : ConsumeQuota (Env.ok now) db tenantID quotaType limitType amount productCode bizID
      bizType =
      { success := true, remainingQuota := sub32 m.HardLimit (add32 m.UsedCount amount),
        err := none,
        db := { quotas := Save now { m with UsedCount := add32 m.UsedCount amount } db.quotas
                usages := Create now
                  { RecordID := 0, QuotaID := m.QuotaID, TenantID := tenantID,
                    OperationType := "CONSUME", DeltaValue := amount,
                    CurrentUsed := add32 m.UsedCount amount, BizID := bizID, BizType := bizType,
                    Operator := "", OperationTime := 0, ExpireTime := 0, Remark := "" }
                  db.usages } } := by
    unfold ConsumeQuota Transaction
    rw [consumeTx_resolved hres]
    simp only [Env.ok, consumeLocked, hng, if_false]
    rfl
  rw [hout]
  refine ⟨rfl, rfl, ?_, rfl, ?_⟩
  · exact stored_Save now { m with UsedCount := add32 m.UsedCount amount } db.quotas _
      ⟨m, hmem, rfl⟩
  · intro hh hu ha hint
    have hsum : isInt32 (m.UsedCount + amount) := by
      unfold isInt32 minInt32 maxInt32 at hh ⊢
      omega
    have e1 : add32 m.UsedCount amount = m.UsedCount + amount := by
      unfold add32; exact wrap32_of_isInt32 hsum
    refine ⟨e1, ?_⟩
    rw [e1] at hle ⊢
    unfold sub32
    apply wrap32_of_isInt32
    unfold isInt32 minInt32 maxInt32 at hh hsum ⊢
    omega

/-- C2 at the spec's scenario: `{hardLimit = 100, usedCount = 95}`, consume 5. -/
theorem consumeQuota_success_witness :
    ConsumeResolves (Env.ok 0) (sampleDB 100 95) "t1" QuotaTypeSMS LimitTypeDaily ""
      (sampleRow 100 95) ∧
    (ConsumeQuota (Env.ok 0) (sampleDB 100 95) "t1" QuotaTypeSMS LimitTypeDaily 5 "" "b"
      "o").success = true ∧
    (stored (ConsumeQuota (Env.ok 0) (sampleDB 100 95) "t1" QuotaTypeSMS LimitTypeDaily 5 "" "b"
      "o").db 1).map (fun r => r.UsedCount) = some 100 ∧
    (ConsumeQuota (Env.ok 0) (sampleDB 100 95) "t1" QuotaTypeSMS LimitTypeDaily 5 "" "b"
      "o").remainingQuota = 0 := by
  have h := consumeQuota_success 0 (sampleDB 100 95) "t1" QuotaTypeSMS LimitTypeDaily 5 "" "b"
    "o" (sampleRow 100 95) (by decide) (by decide)
  refine ⟨by decide, h.1, ?_, ?_⟩
  · have h3 := h.2.2.1
    simp only [sampleRow] at h3
    rw [h3]
    decide
  · rw [h.2.2.2.1]
    decide

/-- A `ConsumeQuota` that returns no error took the last line of its closure. -/
theorem ConsumeQuota_err_none {env : Env} {db : DB} {tenantID : String} {quotaType : QuotaType}
    {limitType : LimitType} {amount : Int} {productCode bizID bizType : String}
    (h : (ConsumeQuota env db tenantID quotaType limitType amount productCode bizID
      bizType).err = none) :
    ∃ m, ConsumeResolves env db tenantID quotaType limitType productCode m ∧
      m ∈ db.quotas ∧
      add32 m.UsedCount amount ≤ m.HardLimit ∧
      ConsumeQuota env db tenantID quotaType limitType amount productCode bizID bizType =
        { success := true
          remainingQuota := sub32 m.HardLimit (add32 m.UsedCount amount)
          err := none
          db :=
            { quotas := Save env.now { m with UsedCount := add32 m.UsedCount amount } db.quotas
              usages := Create env.now
                { RecordID := 0, QuotaID := m.QuotaID, TenantID := tenantID,
                  OperationType := "CONSUME", DeltaValue := amount,
                  CurrentUsed := add32 m.UsedCount amount, BizID := bizID, BizType := bizType,
                  Operator := "", OperationTime := 0, ExpireTime := 0, Remark := "" }
                db.usages } } := by
  unfold ConsumeQuota at h ⊢
  obtain ⟨h1, h2⟩ := Transaction_err_none h
  obtain ⟨m, hres, hle, heq⟩ := consumeTx_err_none h1
  refine ⟨m, hres, ?_, hle, ?_⟩
  · rcases hres with hr | ⟨_, hr⟩
    · exact (First_row_mem hr).1
    · exact (First_row_mem hr).1
  · rw [h2, heq]

/-- A `ReleaseQuota` that returns no error took the last line of its closure. -/
theorem ReleaseQuota_err_none {env : Env} {db : DB} {tenantID : String} {quotaType : QuotaType}
    {limitType : LimitType} {amount : Int} {productCode bizID : String}
    (h : (ReleaseQuota env db tenantID quotaType limitType amount productCode bizID).err = none) :
    ∃ m, ReleaseResolves env db tenantID quotaType limitType productCode m ∧
      m ∈ db.quotas ∧
      ReleaseQuota env db tenantID quotaType limitType amount productCode bizID =
        { success := true
          remainingQuota := sub32 m.HardLimit
            (if m.UsedCount < amount then 0 else sub32 m.UsedCount amount)
          err := none
          db :=
            { quotas := Save env.now
                { m with UsedCount := if m.UsedCount < amount then 0 else sub32 m.UsedCount amount }
                db.quotas
              usages := Create env.now
                { RecordID := 0, QuotaID := m.QuotaID, TenantID := tenantID,
                  OperationType := "RELEASE", DeltaValue := neg32 amount,
                  CurrentUsed := if m.UsedCount < amount then 0 else sub32 m.UsedCount amount,
                  BizID := bizID, BizType := "",
                  Operator := "", OperationTime := 0, ExpireTime := 0, Remark := "" }
                db.usages } } := by
  unfold ReleaseQuota at h ⊢
  obtain ⟨h1, h2⟩ := Transaction_err_none h
  obtain ⟨m, hres, heq⟩ := releaseTx_err_none h1
  refine ⟨m, hres, (First_row_mem hres).1, ?_⟩
  rw [h2, heq]

/-! ## the usage ledger -/

/-- C3: a `ConsumeQuota` and a `ReleaseQuota` that succeed (they return no error,
and then `success = true`) append exactly one entry to the usage ledger; the
entry carries the primary key of the locked row, and its `currentUsed` is the
`usedCount` of the stored row after the call. The entry of a consume has
operation type `CONSUME` and `deltaValue = amount`. -/
theorem usage_entry_of_success :
    (∀ (env : Env) (db : DB) (tenantID : String) (quotaType : QuotaType) (limitType : LimitType)
      (amount : Int) (productCode bizID bizType : String),
      (ConsumeQuota env db tenantID quotaType limitType amount productCode bizID
        bizType).err = none →
      ∃ m e, ConsumeResolves env db tenantID quotaType limitType productCode m ∧
        (ConsumeQuota env db tenantID quotaType limitType amount productCode bizID
          bizType).success = true ∧
        (ConsumeQuota env db tenantID quotaType limitType amount productCode bizID
          bizType).db.usages = db.usages ++ [e] ∧
        e.QuotaID = m.QuotaID ∧
        (stored (ConsumeQuota env db tenantID quotaType limitType amount productCode bizID
          bizType).db m.QuotaID).map (fun r => r.UsedCount) = some e.CurrentUsed ∧
        e.OperationType = convertOperationTypeToString OperationTypeConsume ∧
        e.OperationType = "CONSUME" ∧
        e.DeltaValue = amount) ∧
    (∀ (env : Env) (db : DB) (tenantID : String) (quotaType : QuotaType) (limitType : LimitType)
      (amount : Int) (productCode bizID : String),
      (ReleaseQuota env db tenantID quotaType limitType amount productCode bizID).err = none →
      ∃ m e, ReleaseResolves env db tenantID quotaType limitType productCode m ∧
        (ReleaseQuota env db tenantID quotaType limitType amount productCode bizID).success
          = true ∧
        (ReleaseQuota env db tenantID quotaType limitType amount productCode bizID).db.usages
          = db.usages ++ [e] ∧
        e.QuotaID = m.QuotaID ∧
        (stored (ReleaseQuota env db tenantID quotaType limitType amount productCode
          bizID).db m.QuotaID).map (fun r => r.UsedCount) = some e.CurrentUsed) := by
  constructor
  · intro env db tenantID quotaType limitType amount productCode bizID bizType h
    obtain ⟨m, hres, hmem, _, heq⟩ := ConsumeQuota_err_none h
    rw [heq]
    refine ⟨m, _, hres, rfl, rfl, rfl, ?_, rfl, rfl, rfl⟩
    rw [stored_Save env.now { m with UsedCount := add32 m.UsedCount amount } db.quotas _
      ⟨m, hmem, rfl⟩]
    rfl
  · intro env db tenantID quotaType limitType amount productCode bizID h
    obtain ⟨m, hres, hmem, heq⟩ := ReleaseQuota_err_none h
    rw [heq]
    refine ⟨m, _, hres, rfl, rfl, rfl, ?_⟩
    rw [stored_Save env.now
      { m with UsedCount := if m.UsedCount < amount then 0 else sub32 m.UsedCount amount }
      db.quotas _ ⟨m, hmem, rfl⟩]
    rfl

/-- C3 at the spec's scenario: consume 5 on `{hardLimit = 100, usedCount = 95}` appends
one entry with `currentUsed = 100`, and a release of 5 on the same row one more. -/
theorem usage_entry_of_success_witness :
    (∃ m e, ConsumeResolves (Env.ok 0) (sampleDB 100 95) "t1" QuotaTypeSMS LimitTypeDaily "" m ∧
        (ConsumeQuota (Env.ok 0) (sampleDB 100 95) "t1" QuotaTypeSMS LimitTypeDaily 5 "" "b"
          "o").success = true ∧
        (ConsumeQuota (Env.ok 0) (sampleDB 100 95) "t1" QuotaTypeSMS LimitTypeDaily 5 "" "b"
          "o").db.usages = (sampleDB 100 95).usages ++ [e] ∧
        e.QuotaID = m.QuotaID ∧
        (stored (ConsumeQuota (Env.ok 0) (sampleDB 100 95) "t1" QuotaTypeSMS LimitTypeDaily 5 ""
          "b" "o").db m.QuotaID).map (fun r => r.UsedCount) = some e.CurrentUsed ∧
        e.OperationType = convertOperationTypeToString OperationTypeConsume ∧
        e.OperationType = "CONSUME" ∧
        e.DeltaValue = 5) ∧
    (∃ m e, ReleaseResolves (Env.ok 0) (sampleDB 100 95) "t1" QuotaTypeSMS LimitTypeDaily "" m ∧
        (ReleaseQuota (Env.ok 0) (sampleDB 100 95) "t1" QuotaTypeSMS LimitTypeDaily 5 ""
          "b").success = true ∧
        (ReleaseQuota (Env.ok 0) (sampleDB 100 95) "t1" QuotaTypeSMS LimitTypeDaily 5 ""
          "b").db.usages = (sampleDB 100 95).usages ++ [e] ∧
        e.QuotaID = m.QuotaID ∧
        (stored (ReleaseQuota (Env.ok 0) (sampleDB 100 95) "t1" QuotaTypeSMS LimitTypeDaily 5 ""
          "b").db m.QuotaID).map (fun r => r.UsedCount) = some e.CurrentUsed) :=
  ⟨usage_entry_of_success.1 (Env.ok 0) (sampleDB 100 95) "t1" QuotaTypeSMS LimitTypeDaily 5 ""
      "b" "o" (by decide),
   usage_entry_of_success.2 (Env.ok 0) (sampleDB 100 95) "t1" QuotaTypeSMS LimitTypeDaily 5 ""
      "b" (by decide)⟩

/-- C4: after a `ConsumeQuota` that succeeds (it returns no error, and then
`success = true`) the stored row it locked, and every stored row with that
primary key, has `usedCount <= hardLimit`. -/
theorem consumeQuota_within_hardLimit (env : Env) (db : DB) (tenantID : String)
    (quotaType : QuotaType) (limitType : LimitType) (amount : Int)
    (productCode bizID bizType : String)
    (h : (ConsumeQuota env db tenantID quotaType limitType amount productCode bizID
      bizType).err = none) :
    (ConsumeQuota env db tenantID quotaType limitType amount productCode bizID
      bizType).success = true ∧
    ∃ m r, ConsumeResolves env db tenantID quotaType limitType productCode m ∧
      stored (ConsumeQuota env db tenantID quotaType limitType amount productCode bizID
        bizType).db m.QuotaID = some r ∧
      r.UsedCount ≤ r.HardLimit ∧
      ∀ x ∈ (ConsumeQuota env db tenantID quotaType limitType amount productCode bizID
        bizType).db.quotas, x.QuotaID = m.QuotaID → x.UsedCount ≤ x.HardLimit := by
  obtain ⟨m, hres, hmem, hle, heq⟩ := ConsumeQuota_err_none h
  rw [heq]
  refine ⟨rfl, m, { m with UsedCount := add32 m.UsedCount amount, UpdatedAt := env.now }, hres,
    ?_, ?_, ?_⟩
  · exact stored_Save env.now { m with UsedCount := add32 m.UsedCount amount } db.quotas _
      ⟨m, hmem, rfl⟩
  · exact hle
  · intro x hx hid
    simp only [Save, List.mem_map] at hx
    obtain ⟨y, _, hy⟩ := hx
    by_cases hyid : y.QuotaID = m.QuotaID
    · simp only [hyid, if_true] at hy
      rw [← hy]
      exact hle
    · simp only [hyid, if_false] at hy
      rw [← hy] at hid
      exact absurd hid hyid

/-- C4 at the spec's scenario: consume 5 on `{hardLimit = 100, usedCount = 95}`. -/
theorem consumeQuota_within_hardLimit_witness :
    (ConsumeQuota (Env.ok 0) (sampleDB 100 95) "t1" QuotaTypeSMS LimitTypeDaily 5 "" "b"
      "o").success = true ∧
    ∃ m r, ConsumeResolves (Env.ok 0) (sampleDB 100 95) "t1" QuotaTypeSMS LimitTypeDaily "" m ∧
      stored (ConsumeQuota (Env.ok 0) (sampleDB 100 95) "t1" QuotaTypeSMS LimitTypeDaily 5 "" "b"
        "o").db m.QuotaID = some r ∧
      r.UsedCount ≤ r.HardLimit ∧
      ∀ x ∈ (ConsumeQuota (Env.ok 0) (sampleDB 100 95) "t1" QuotaTypeSMS LimitTypeDaily 5 "" "b"
        "o").db.quotas, x.QuotaID = m.QuotaID → x.UsedCount ≤ x.HardLimit :=
  consumeQuota_within_hardLimit (Env.ok 0) (sampleDB 100 95) "t1" QuotaTypeSMS LimitTypeDaily 5 ""
    "b" "o" (by decide)

/-! ## stability of the lookup under Save -/

theorem find?_Save_some {cond : QuotaModel → Bool} {rows : List QuotaModel} {m : QuotaModel}
    (now : Int) (m1 : QuotaModel) (h : rows.find? cond = some m)
    (hid : m1.QuotaID = m.QuotaID)
    (hcond : cond { m1 with UpdatedAt := now } = true) :
    (Save now m1 rows).find? cond = some { m1 with UpdatedAt := now } := by
  unfold Save
  induction rows with
  | nil => simp at h
  | cons r rs ih =>
    simp only [List.map_cons]
    by_cases hr : r.QuotaID = m1.QuotaID
    · simp only [hr, if_true]
      exact List.find?_cons_of_pos _ hcond
    · simp only [hr, if_false]
      by_cases hc : cond r = true
      · rw [List.find?_cons_of_pos _ hc] at h
        simp only [Option.some.injEq] at h
        subst h
        exact absurd hid.symm hr
      · rw [List.find?_cons_of_neg _ hc] at h
        rw [List.find?_cons_of_neg _ hc]
        exact ih h

theorem find?_Save_none {cond : QuotaModel → Bool} {rows : List QuotaModel}
    (now : Int) (m1 : QuotaModel) (hcond : cond { m1 with UpdatedAt := now } = false)
    (h : rows.find? cond = none) :
    (Save now m1 rows).find? cond = none := by
  unfold Save
  rw [List.find?_eq_none] at h ⊢
  intro x hx
  simp only [List.mem_map] at hx
  obtain ⟨y, hy, hxy⟩ := hx
  by_cases hr : y.QuotaID = m1.QuotaID
  · simp only [hr, if_true] at hxy
    rw [← hxy]; simp [hcond]
  · simp only [hr, if_false] at hxy
    rw [← hxy]; exact h y hy

/-- The key of a row that `ConsumeQuota` locked leads to the same row, with its new
counter, on the tables the call leaves. -/
theorem ConsumeResolves_after_Save {now : Int} {db : DB} {tenantID : String}
    {quotaType : QuotaType} {limitType : LimitType} {productCode : String} {m : QuotaModel}
    (hres : ConsumeResolves (Env.ok now) db tenantID quotaType limitType productCode m)
    (used : Int) (usages : List QuotaUsageModel) :
    ConsumeResolves (Env.ok now)
      { quotas := Save now { m with UsedCount := used } db.quotas, usages := usages }
      tenantID quotaType limitType productCode
      { m with UsedCount := used, UpdatedAt := now } := by
  unfold ConsumeResolves First at hres ⊢
  simp only [Env.ok] at hres ⊢
  rcases hres with h | ⟨h1, h2⟩
  · left
    cases hf : db.quotas.find? (tenantCond tenantID quotaType limitType productCode) with
    | none => simp [hf] at h
    | some r =>
      simp only [hf, Found.row.injEq] at h
      subst h
      have hc : tenantCond tenantID quotaType limitType productCode
          { r with UsedCount := used, UpdatedAt := now } = true := by
        have := List.find?_some hf
        simpa [tenantCond] using this
      rw [find?_Save_some now { r with UsedCount := used } hf rfl hc]
  · right
    cases hf : db.quotas.find? (tenantCond tenantID quotaType limitType productCode) with
    | some r => simp [hf] at h1
    | none =>
      cases hg : db.quotas.find? (globalCond quotaType limitType) with
      | none => simp [hg] at h2
      | some r =>
        simp only [hg, Found.row.injEq] at h2
        subst h2
        have hmem : r ∈ db.quotas := List.mem_of_find?_eq_some hg
        have hc : tenantCond tenantID quotaType limitType productCode
            { r with UsedCount := used, UpdatedAt := now } = false := by
          have := (List.find?_eq_none.mp hf) r hmem
          simpa [tenantCond] using this
        have hc2 : globalCond quotaType limitType
            { r with UsedCount := used, UpdatedAt := now } = true := by
          have := List.find?_some hg
          simpa [globalCond] using this
        rw [find?_Save_none now { r with UsedCount := used } hc hf,
          find?_Save_some now { r with UsedCount := used } hg rfl hc2]
        exact ⟨rfl, rfl⟩

/-- With the fault-free store, a consume on a locked row that passes the check. -/
theorem ConsumeQuota_ok_pass {now : Int} {db : DB} {tenantID : String}
    {quotaType : QuotaType} {limitType : LimitType} {productCode : String} {m : QuotaModel}
    (hres : ConsumeResolves (Env.ok now) db tenantID quotaType limitType productCode m)
    (amount : Int) (bizID bizType : String)
    (hle : add32 m.UsedCount amount ≤ m.HardLimit) :
    ConsumeQuota (Env.ok now) db tenantID quotaType limitType amount productCode bizID bizType =
      { success := true, remainingQuota := sub32 m.HardLimit (add32 m.UsedCount amount),
        err := none,
        db := { quotas := Save now { m with UsedCount := add32 m.UsedCount amount } db.quotas
                usages := Create now
                  { RecordID := 0, QuotaID := m.QuotaID, TenantID := tenantID,
                    OperationType := "CONSUME", DeltaValue := amount,
                    CurrentUsed := add32 m.UsedCount amount, BizID := bizID, BizType := bizType,
                    Operator := "", OperationTime := 0, ExpireTime := 0, Remark := "" }
                  db.usages } } := by
  have hng : ¬ add32 m.UsedCount amount > m.HardLimit := by omega
  unfold ConsumeQuota Transaction
  rw [consumeTx_resolved hres]
  simp only [Env.ok, consumeLocked, hng, if_false]
  rfl

/-- With the fault-free store, a consume on a locked row that fails the check. -/
theorem ConsumeQuota_ok_fail {now : Int} {db : DB} {tenantID : String}
    {quotaType : QuotaType} {limitType : LimitType} {productCode : String} {m : QuotaModel}
    (hres : ConsumeResolves (Env.ok now) db tenantID quotaType limitType productCode m)
    (amount : Int) (bizID bizType : String)
    (hgt : add32 m.UsedCount amount > m.HardLimit) :
    ConsumeQuota (Env.ok now) db tenantID quotaType limitType amount productCode bizID bizType =
      { success := false, remainingQuota := sub32 m.HardLimit m.UsedCount,
        err := some (.quotaExceeded m.UsedCount m.HardLimit), db := db } := by
  unfold ConsumeQuota Transaction
  rw [consumeTx_resolved hres]
  simp [Env.ok, consumeLocked, hgt]

/-- Unit consumes below the hard limit: `n` calls of amount 1 on a row with
`usedCount + n <= hardLimit` all succeed and leave the counter at `usedCount + n`. -/
theorem consumeEach_ones_pass (now : Int) (tenantID : String) (quotaType : QuotaType)
    (limitType : LimitType) (productCode bizID bizType : String) :
    ∀ (n : Nat) (db : DB) (m : QuotaModel),
      ConsumeResolves (Env.ok now) db tenantID quotaType limitType productCode m →
      0 ≤ m.UsedCount → m.UsedCount + n ≤ m.HardLimit → m.HardLimit ≤ maxInt32 →
      ∀ rest : List Int, ∃ pre db1 m1,
        consumeEach (Env.ok now) tenantID quotaType limitType productCode bizID bizType db
          (List.replicate n 1 ++ rest)
          = pre ++ consumeEach (Env.ok now) tenantID quotaType limitType productCode bizID
              bizType db1 rest ∧
        pre.length = n ∧
        (∀ o ∈ pre, o.success = true ∧ o.err = none) ∧
        ConsumeResolves (Env.ok now) db1 tenantID quotaType limitType productCode m1 ∧
        m1.UsedCount = m.UsedCount + n ∧ m1.HardLimit = m.HardLimit := by
  intro n
  induction n with
  | zero =>
    intro db m hres _ _ _ rest
    exact ⟨[], db, m, by simp, rfl, by simp, hres, by simp, rfl⟩
  | succ k ih =>
    intro db m hres h0 hle hmax rest
    have hadd : add32 m.UsedCount 1 = m.UsedCount + 1 := by
      unfold add32
      apply wrap32_of_isInt32
      unfold isInt32 minInt32
      unfold maxInt32 at hmax ⊢
      push_cast at hle
      omega
    have hpass : add32 m.UsedCount 1 ≤ m.HardLimit := by
      rw [hadd]; push_cast at hle; omega
    have hout := ConsumeQuota_ok_pass hres 1 bizID bizType hpass
    have hres1 := ConsumeResolves_after_Save hres (add32 m.UsedCount 1)
      (Create now
        { RecordID := 0, QuotaID := m.QuotaID, TenantID := tenantID,
          OperationType := "CONSUME", DeltaValue := 1,
          CurrentUsed := add32 m.UsedCount 1, BizID := bizID, BizType := bizType,
          Operator := "", OperationTime := 0, ExpireTime := 0, Remark := "" }
        db.usages)
    obtain ⟨pre, db1, m1, heq, hlen, hall, hr1, hu1, hh1⟩ :=
      ih _ _ hres1 (by simp only [hadd]; omega)
        (by simp only [hadd]; push_cast at hle; omega) hmax rest
    refine ⟨ConsumeQuota (Env.ok now) db tenantID quotaType limitType 1 productCode bizID
      bizType :: pre, db1, m1, ?_, by simp [hlen], ?_, hr1, ?_, hh1⟩
    · rw [List.replicate_succ, List.cons_append, consumeEach, List.cons_append]
      congr 1
      rw [hout]
      exact heq
    · intro o ho
      rcases List.mem_cons.mp ho with rfl | ho
      · rw [hout]; exact ⟨rfl, rfl⟩
      · exact hall o ho
    · rw [hu1]; simp only [hadd]; push_cast; omega

/-- Unit consumes at the hard limit: on a row with `usedCount = hardLimit` below the
largest int32, every call of amount 1 is refused with the quota-exceeded error
and changes nothing. -/
theorem consumeEach_ones_full (now : Int) (tenantID : String) (quotaType : QuotaType)
    (limitType : LimitType) (productCode bizID bizType : String) (db : DB) (m : QuotaModel)
    (hres : ConsumeResolves (Env.ok now) db tenantID quotaType limitType productCode m)
    (hfull : m.UsedCount = m.HardLimit) (hmin : minInt32 ≤ m.HardLimit)
    (hmax : m.HardLimit < maxInt32) :
    ∀ n : Nat,
      consumeEach (Env.ok now) tenantID quotaType limitType productCode bizID bizType db
        (List.replicate n 1)
        = List.replicate n
            { success := false, remainingQuota := 0,
              err := some (.quotaExceeded m.HardLimit m.HardLimit), db := db } := by
  have hgt : add32 m.UsedCount 1 > m.HardLimit := by
    have : add32 m.UsedCount 1 = m.UsedCount + 1 := by
      unfold add32
      apply wrap32_of_isInt32
      unfold isInt32
      unfold minInt32 at hmin ⊢
      unfold maxInt32 at hmax ⊢
      omega
    omega
  have hout := ConsumeQuota_ok_fail hres 1 bizID bizType hgt
  have hrem : sub32 m.HardLimit m.UsedCount = 0 := by
    rw [hfull]; unfold sub32 wrap32; simp
  rw [hrem, hfull] at hout
  intro n
  induction n with
  | zero => simp [consumeEach]
  | succ k ih =>
    rw [List.replicate_succ, consumeEach, hout, List.replicate_succ]
    simp only
    rw [ih]

/-! ## over-consumption -/

/-- C5 (code bug): on the row `{hardLimit = 2147483647, usedCount = 0}` the calls
`consume(2147483647)` and `consume(1)`, one after the other, both succeed: the
second check computes `2147483647 + 1` in int32, which is negative. The
amounts that succeeded sum to 2147483648, above the hard limit. -/
theorem consumeEach_sum_exceeds_hardLimit :
    (consumeEach (Env.ok 0) "t1" QuotaTypeSMS LimitTypeDaily "" "b" "o" (sampleDB 2147483647 0)
      [2147483647, 1]).map (fun o => (o.success, o.err)) = [(true, none), (true, none)] ∧
    consumedSum [2147483647, 1]
      (consumeEach (Env.ok 0) "t1" QuotaTypeSMS LimitTypeDaily "" "b" "o" (sampleDB 2147483647 0)
        [2147483647, 1]) = 2147483648 ∧
    consumedSum [2147483647, 1]
      (consumeEach (Env.ok 0) "t1" QuotaTypeSMS LimitTypeDaily "" "b" "o" (sampleDB 2147483647 0)
        [2147483647, 1]) > (sampleRow 2147483647 0).HardLimit := by
  refine ⟨by decide, by decide, by decide⟩

/-- Below the largest int32 the unit-consume scenario holds: on a row with
`usedCount = 0` and `hardLimit = H < 2147483647`, of `N` calls of amount 1 the
first `min N H` succeed and every later one fails with the quota-exceeded error. -/
theorem consumeEach_unit_calls (now : Int) (tenantID : String) (quotaType : QuotaType)
    (limitType : LimitType) (productCode bizID bizType : String) (db : DB) (m : QuotaModel)
    (H N : Nat)
    (hres : ConsumeResolves (Env.ok now) db tenantID quotaType limitType productCode m)
    (h0 : m.UsedCount = 0) (hH : m.HardLimit = H) (hmax : m.HardLimit < maxInt32) :
    ∃ pre db1,
      consumeEach (Env.ok now) tenantID quotaType limitType productCode bizID bizType db
        (List.replicate N 1)
        = pre ++ List.replicate (N - min N H)
            { success := false, remainingQuota := 0,
              err := some (.quotaExceeded m.HardLimit m.HardLimit), db := db1 } ∧
      pre.length = min N H ∧ ∀ o ∈ pre, o.success = true ∧ o.err = none := by
  by_cases hN : N ≤ H
  · obtain ⟨pre, db1, m1, heq, hlen, hall, _, _, _⟩ :=
      consumeEach_ones_pass now tenantID quotaType limitType productCode bizID bizType N db m
        hres (by omega) (by rw [h0, hH]; omega) (by omega) []
    refine ⟨pre, db1, ?_, by omega, hall⟩
    simp only [List.append_nil, consumeEach] at heq
    rw [heq]
    have : N - min N H = 0 := by omega
    simp [this]
  · have hsplit : List.replicate N (1 : Int)
        = List.replicate H 1 ++ List.replicate (N - H) 1 := by
      rw [← List.replicate_add]; congr 1; omega
    obtain ⟨pre, db1, m1, heq, hlen, hall, hr1, hu1, hh1⟩ :=
      consumeEach_ones_pass now tenantID quotaType limitType productCode bizID bizType H db m
        hres (by omega) (by rw [h0, hH]; omega) (by omega)
        (List.replicate (N - H) 1)
    have hfull := consumeEach_ones_full now tenantID quotaType limitType productCode bizID
      bizType db1 m1 hr1 (by rw [hu1, hh1, h0, hH]; simp)
      (by rw [hh1, hH]; unfold minInt32; omega) (by rw [hh1]; exact hmax) (N - H)
    refine ⟨pre, db1, ?_, by omega, hall⟩
    rw [hsplit, heq, hfull, hh1]
    have : N - min N H = N - H := by omega
    rw [this]

theorem consumeEach_unit_calls_witness :
    ∃ pre db1,
      consumeEach (Env.ok 0) "t1" QuotaTypeSMS LimitTypeDaily "" "b" "o" (sampleDB 10 0)
        (List.replicate 13 1)
        = pre ++ List.replicate (13 - min 13 10)
            { success := false, remainingQuota := 0,
              err := some (.quotaExceeded (sampleRow 10 0).HardLimit (sampleRow 10 0).HardLimit),
              db := db1 } ∧
      pre.length = min 13 10 ∧ ∀ o ∈ pre, o.success = true ∧ o.err = none :=
  consumeEach_unit_calls 0 "t1" QuotaTypeSMS LimitTypeDaily "" "b" "o" (sampleDB 10 0)
    (sampleRow 10 0) 10 13 (by decide) rfl rfl (by decide)

/-- C6 (code bug): on the row `{hardLimit = 2147483647, usedCount = 0}`, of
2147483648 calls of amount 1 applied one after another every single one
succeeds, the last one too: its check computes `2147483647 + 1` in int32.
The scenario allows `min 2147483648 2147483647 = 2147483647` successes. -/
theorem consumeEach_unit_calls_past_maxInt32 :
    (consumeEach (Env.ok 0) "t1" QuotaTypeSMS LimitTypeDaily "" "b" "o" (sampleDB 2147483647 0)
      (List.replicate 2147483648 1)).length = 2147483648 ∧
    (∀ o ∈ consumeEach (Env.ok 0) "t1" QuotaTypeSMS LimitTypeDaily "" "b" "o"
      (sampleDB 2147483647 0) (List.replicate 2147483648 1), o.success = true ∧ o.err = none) ∧
    min 2147483648 (sampleRow 2147483647 0).HardLimit = 2147483647 := by
  have hsplit : List.replicate 2147483648 (1 : Int)
      = List.replicate 2147483647 1 ++ [1] := List.replicate_succ' 2147483647 1
  obtain ⟨pre, db1, m1, heq, hlen, hall, hr1, hu1, hh1⟩ :=
    consumeEach_ones_pass 0 "t1" QuotaTypeSMS LimitTypeDaily "" "b" "o" 2147483647
      (sampleDB 2147483647 0) (sampleRow 2147483647 0) (by decide) (by decide) (by decide)
      (by decide) [1]
  have hu : m1.UsedCount = 2147483647 := by rw [hu1]; rfl
  have hh : m1.HardLimit = 2147483647 := by rw [hh1]; rfl
  have hpass : add32 m1.UsedCount 1 ≤ m1.HardLimit := by
    rw [hu, hh]; decide
  have hlast := ConsumeQuota_ok_pass hr1 1 "b" "o" hpass
  rw [hsplit, heq]
  refine ⟨?_, ?_, by decide⟩
  · simp [consumeEach, hlen]
  · intro o ho
    rcases List.mem_append.mp ho with ho | ho
    · exact hall o ho
    · simp only [consumeEach, List.mem_singleton] at ho
      rw [ho, hlast]
      exact ⟨rfl, rfl⟩

/-! ## ReleaseQuota -/

/-- C8 (counterexample): on the row `{hardLimit = 100, usedCount = 1}` a release of
`amount = -2147483647` stores `usedCount = -2147483648`, while
`max 0 (1 - (-2147483647))` over the integers is 2147483648. -/
theorem releaseQuota_not_integer_max :
    ReleaseResolves (Env.ok 0) (sampleDB 100 1) "t1" QuotaTypeSMS LimitTypeDaily ""
      (sampleRow 100 1) ∧
    isInt32 (-2147483647) ∧
    (stored (ReleaseQuota (Env.ok 0) (sampleDB 100 1) "t1" QuotaTypeSMS LimitTypeDaily
      (-2147483647) "" "b").db 1).map (fun r => r.UsedCount) = some (-2147483648) ∧
    (stored (ReleaseQuota (Env.ok 0) (sampleDB 100 1) "t1" QuotaTypeSMS LimitTypeDaily
      (-2147483647) "" "b").db 1).map (fun r => r.UsedCount)
      ≠ some (max 0 ((sampleRow 100 1).UsedCount - (-2147483647))) := by
  refine ⟨by decide, by decide, by decide, by decide⟩

/-- C8 (amended): for a locked row and an amount with
`usedCount - amount <= 2147483647`, after a `ReleaseQuota` that returns no error
the stored row is the locked row with `usedCount = max 0 (usedCount - amount)`,
the subtraction taken over the integers. -/
theorem releaseQuota_clamps (env : Env) (db : DB) (tenantID : String)
    (quotaType : QuotaType) (limitType : LimitType) (amount : Int)
    (productCode bizID : String) (m : QuotaModel)
    (hres : ReleaseResolves env db tenantID quotaType limitType productCode m)
    (herr : (ReleaseQuota env db tenantID quotaType limitType amount productCode bizID).err
      = none)
    (hfit : m.UsedCount - amount ≤ maxInt32) :
    stored (ReleaseQuota env db tenantID quotaType limitType amount productCode bizID).db
      m.QuotaID
      = some { m with UsedCount := max 0 (m.UsedCount - amount), UpdatedAt := env.now } := by
  obtain ⟨m1, hres1, hmem, heq⟩ := ReleaseQuota_err_none herr
  have hm : m1 = m := by
    unfold ReleaseResolves at hres hres1
    rw [hres] at hres1
    exact (Found.row.inj hres1).symm
  subst hm
  rw [heq]
  have hval : (if m1.UsedCount < amount then 0 else sub32 m1.UsedCount amount)
      = max 0 (m1.UsedCount - amount) := by
    by_cases hlt : m1.UsedCount < amount
    · simp only [hlt, if_true]
      rw [max_eq_left (by omega)]
    · simp only [hlt, if_false]
      have : sub32 m1.UsedCount amount = m1.UsedCount - amount := by
        unfold sub32
        apply wrap32_of_isInt32
        unfold isInt32 minInt32
        unfold maxInt32 at hfit ⊢
        omega
      rw [this, max_eq_right (by omega)]
  rw [← hval]
  exact stored_Save env.now
    { m1 with UsedCount := if m1.UsedCount < amount then 0 else sub32 m1.UsedCount amount }
    db.quotas _ ⟨m1, hmem, rfl⟩

/-- C8 (amended) on `{hardLimit = 100, usedCount = 3}`: releasing 10 stores 0. -/
theorem releaseQuota_clamps_witness :
    stored (ReleaseQuota (Env.ok 0) (sampleDB 100 3) "t1" QuotaTypeSMS LimitTypeDaily 10 ""
      "b").db (sampleRow 100 3).QuotaID
      = some { sampleRow 100 3 with
          UsedCount := max 0 ((sampleRow 100 3).UsedCount - 10), UpdatedAt := (Env.ok 0).now } :=
  releaseQuota_clamps (Env.ok 0) (sampleDB 100 3) "t1" QuotaTypeSMS LimitTypeDaily 10 "" "b"
    (sampleRow 100 3) (by decide) (by decide) (by decide)

/-- C9 (code bug): on the row `{hardLimit = 100, usedCount = 5}`, whose counter is
not negative, a release of `amount = -2147483648` is not clamped (`5 < amount`
is false) and `5 - amount` wraps in int32: the call succeeds and stores
`usedCount = -2147483643`, below 0. -/
theorem releaseQuota_stores_negative :
    0 ≤ (sampleRow 100 5).UsedCount ∧
    isInt32 (-2147483648) ∧
    ReleaseResolves (Env.ok 0) (sampleDB 100 5) "t1" QuotaTypeSMS LimitTypeDaily ""
      (sampleRow 100 5) ∧
    (ReleaseQuota (Env.ok 0) (sampleDB 100 5) "t1" QuotaTypeSMS LimitTypeDaily
      (-2147483648) "" "b").success = true ∧
    (ReleaseQuota (Env.ok 0) (sampleDB 100 5) "t1" QuotaTypeSMS LimitTypeDaily
      (-2147483648) "" "b").err = none ∧
    (stored (ReleaseQuota (Env.ok 0) (sampleDB 100 5) "t1" QuotaTypeSMS LimitTypeDaily
      (-2147483648) "" "b").db 1).map (fun r => r.UsedCount) = some (-2147483643) ∧
    (-2147483643 : Int) < 0 := by
  refine ⟨by decide, by decide, by decide, by decide, by decide, by decide, by decide⟩

/-- C10: a `ReleaseQuota` that succeeds (it returns no error, and then
`success = true`) appends one entry with operation type `RELEASE` and
`deltaValue = -amount`, the int32 negation of the requested amount (the integer
`-amount` unless `amount` is the smallest int32), also when the counter was
clamped to 0; the returned `remaining` is `hardLimit - usedCount` of the stored
row (int32 subtraction). -/
theorem releaseQuota_entry_and_remaining (env : Env) (db : DB) (tenantID : String)
    (quotaType : QuotaType) (limitType : LimitType) (amount : Int)
    (productCode bizID : String)
    (herr : (ReleaseQuota env db tenantID quotaType limitType amount productCode bizID).err
      = none) :
    (ReleaseQuota env db tenantID quotaType limitType amount productCode bizID).success
      = true ∧
    ∃ m e r, ReleaseResolves env db tenantID quotaType limitType productCode m ∧
      (ReleaseQuota env db tenantID quotaType limitType amount productCode bizID).db.usages
        = db.usages ++ [e] ∧
      e.OperationType = convertOperationTypeToString OperationTypeRelease ∧
      e.OperationType = "RELEASE" ∧
      e.DeltaValue = neg32 amount ∧
      (isInt32 amount → amount ≠ minInt32 → e.DeltaValue = -amount) ∧
      stored (ReleaseQuota env db tenantID quotaType limitType amount productCode bizID).db
        m.QuotaID = some r ∧
      (m.UsedCount < amount → r.UsedCount = 0) ∧
      r.HardLimit = m.HardLimit ∧
      (ReleaseQuota env db tenantID quotaType limitType amount productCode bizID).remainingQuota
        = sub32 r.HardLimit r.UsedCount := by
  obtain ⟨m, hres, hmem, heq⟩ := ReleaseQuota_err_none herr
  rw [heq]
  refine ⟨rfl, m, _,
    { m with
        UsedCount := if m.UsedCount < amount then 0 else sub32 m.UsedCount amount,
        UpdatedAt := env.now },
    hres, rfl, rfl, rfl, rfl, ?_, ?_, ?_, rfl, rfl⟩
  · intro ha hne
    show neg32 amount = -amount
    unfold neg32
    apply wrap32_of_isInt32
    unfold isInt32 at ha ⊢
    unfold minInt32 at ha hne ⊢
    unfold maxInt32 at ha ⊢
    omega
  · exact stored_Save env.now
      { m with UsedCount := if m.UsedCount < amount then 0 else sub32 m.UsedCount amount }
      db.quotas _ ⟨m, hmem, rfl⟩
  · intro hlt
    simp [hlt]

/-- C10 on `{hardLimit = 100, usedCount = 3}`: releasing 10 clamps the counter to 0,
logs `deltaValue = -10` and returns `remaining = 100`. -/
theorem releaseQuota_entry_and_remaining_witness :
    (ReleaseQuota (Env.ok 0) (sampleDB 100 3) "t1" QuotaTypeSMS LimitTypeDaily 10 ""
      "b").success = true ∧
    (ReleaseQuota (Env.ok 0) (sampleDB 100 3) "t1" QuotaTypeSMS LimitTypeDaily 10 ""
      "b").db.usages.map (fun e => (e.OperationType, e.DeltaValue, e.CurrentUsed))
      = [("RELEASE", -10, 0)] ∧
    (ReleaseQuota (Env.ok 0) (sampleDB 100 3) "t1" QuotaTypeSMS LimitTypeDaily 10 ""
      "b").remainingQuota = 100 :=
  ⟨(releaseQuota_entry_and_remaining (Env.ok 0) (sampleDB 100 3) "t1" QuotaTypeSMS LimitTypeDaily
      10 "" "b" (by decide)).1, by decide, by decide⟩

/-! ## the lookup -/

theorem tenantCond_eq_decide (tenantID : String) (quotaType : QuotaType) (limitType : LimitType)
    (productCode : String) :
    tenantCond tenantID quotaType limitType productCode
      = fun r => decide (TenantMatch tenantID quotaType limitType productCode r) := by
  funext r
  rw [Bool.eq_iff_iff]
  by_cases hp : productCode = ""
  · simp [tenantCond, TenantMatch, hp, and_assoc]
  · simp [tenantCond, TenantMatch, hp, and_assoc]

theorem globalCond_eq_decide (quotaType : QuotaType) (limitType : LimitType) :
    globalCond quotaType limitType
      = fun r => decide (GlobalMatch quotaType limitType r) := by
  funext r
  rw [Bool.eq_iff_iff]
  simp [globalCond, GlobalMatch, and_assoc]

theorem tenantCond_iff {tenantID : String} {quotaType : QuotaType} {limitType : LimitType}
    {productCode : String} {r : QuotaModel} :
    tenantCond tenantID quotaType limitType productCode r = true
      ↔ TenantMatch tenantID quotaType limitType productCode r := by
  rw [tenantCond_eq_decide]; simp

theorem globalCond_iff {quotaType : QuotaType} {limitType : LimitType} {r : QuotaModel} :
    globalCond quotaType limitType r = true ↔ GlobalMatch quotaType limitType r := by
  rw [globalCond_eq_decide]; simp

/-- With a store that answers its queries, `GetQuota` returns the row of the
reference lookup. -/
theorem GetQuota_eq_reference (now : Int) (db : DB) (tenantID : String) (quotaType : QuotaType)
    (limitType : LimitType) (productCode : String) :
    GetQuota (Env.ok now) db tenantID quotaType limitType productCode =
      { quota := (resolveReference db.quotas tenantID quotaType limitType productCode).map
          convertModelToBiz,
        err := none, db := db } := by
  unfold GetQuota resolveReference First
  simp only [Env.ok]
  rw [tenantCond_eq_decide, globalCond_eq_decide]
  cases h1 : db.quotas.find?
      (fun r => decide (TenantMatch tenantID quotaType limitType productCode r)) with
  | some r => simp
  | none =>
    simp only
    cases h2 : db.quotas.find? (fun r => decide (GlobalMatch quotaType limitType r)) with
    | some r => simp
    | none => simp

/-- C12: with a store that answers its queries, `GetQuota` (a) returns a global row
of the same quota type and limit type, whatever its tenant and product codes,
when no row matches the key and such a global row exists (the very row when it
is the only one); (b) returns a row matching the key when one exists, the first
of them, and not the global one; (c) returns no record and no error when
neither exists. -/
theorem getQuota_fallback (now : Int) (db : DB) (tenantID : String) (quotaType : QuotaType)
    (limitType : LimitType) (productCode : String) :
    ((∀ r ∈ db.quotas, ¬ TenantMatch tenantID quotaType limitType productCode r) →
      ∀ g ∈ db.quotas, GlobalMatch quotaType limitType g →
        ∃ g1 ∈ db.quotas, GlobalMatch quotaType limitType g1 ∧
          GetQuota (Env.ok now) db tenantID quotaType limitType productCode =
            { quota := some (convertModelToBiz g1), err := none, db := db } ∧
          ((∀ r ∈ db.quotas, GlobalMatch quotaType limitType r → r = g) → g1 = g)) ∧
    ((∃ r ∈ db.quotas, TenantMatch tenantID quotaType limitType productCode r) →
      ∃ t ∈ db.quotas, TenantMatch tenantID quotaType limitType productCode t ∧
        db.quotas.find?
          (fun r => decide (TenantMatch tenantID quotaType limitType productCode r)) = some t ∧
        GetQuota (Env.ok now) db tenantID quotaType limitType productCode =
          { quota := some (convertModelToBiz t), err := none, db := db }) ∧
    ((∀ r ∈ db.quotas, ¬ TenantMatch tenantID quotaType limitType productCode r) →
      (∀ r ∈ db.quotas, ¬ GlobalMatch quotaType limitType r) →
        GetQuota (Env.ok now) db tenantID quotaType limitType productCode =
          { quota := none, err := none, db := db }) := by
  refine ⟨?_, ?_, ?_⟩
  · intro hno g hg hgm
    have h1 : db.quotas.find?
        (fun r => decide (TenantMatch tenantID quotaType limitType productCode r)) = none := by
      rw [List.find?_eq_none]
      intro r hr
      simpa using hno r hr
    cases h2 : db.quotas.find? (fun r => decide (GlobalMatch quotaType limitType r)) with
    | none =>
      rw [List.find?_eq_none] at h2
      have := h2 g hg
      simp [hgm] at this
    | some g1 =>
      have hmem : g1 ∈ db.quotas := List.mem_of_find?_eq_some h2
      have hm : GlobalMatch quotaType limitType g1 := by
        simpa using List.find?_some h2
      refine ⟨g1, hmem, hm, ?_, fun huniq => huniq g1 hmem hm⟩
      rw [GetQuota_eq_reference]
      simp [resolveReference, h1, h2]
  · rintro ⟨r, hr, hrm⟩
    cases h1 : db.quotas.find?
        (fun r => decide (TenantMatch tenantID quotaType limitType productCode r)) with
    | none =>
      rw [List.find?_eq_none] at h1
      have := h1 r hr
      simp [hrm] at this
    | some t =>
      have hmem : t ∈ db.quotas := List.mem_of_find?_eq_some h1
      have hm : TenantMatch tenantID quotaType limitType productCode t := by
        simpa using List.find?_some h1
      refine ⟨t, hmem, hm, rfl, ?_⟩
      rw [GetQuota_eq_reference]
      simp [resolveReference, h1]
  · intro hno hnog
    have h1 : db.quotas.find?
        (fun r => decide (TenantMatch tenantID quotaType limitType productCode r)) = none := by
      rw [List.find?_eq_none]
      intro r hr
      simpa using hno r hr
    have h2 : db.quotas.find? (fun r => decide (GlobalMatch quotaType limitType r)) = none := by
      rw [List.find?_eq_none]
      intro r hr
      simpa using hnog r hr
    rw [GetQuota_eq_reference]
    simp [resolveReference, h1, h2]

/-- C12 on two stores: a tenant asking for SMS/DAILY gets the global row when it is
the only row, and its own row when both are stored. -/
theorem getQuota_fallback_witness :
    (∃ g1 ∈ (globalDB 100 10).quotas, GlobalMatch QuotaTypeSMS LimitTypeDaily g1 ∧
      GetQuota (Env.ok 0) (globalDB 100 10) "t1" QuotaTypeSMS LimitTypeDaily "" =
        { quota := some (convertModelToBiz g1), err := none, db := globalDB 100 10 } ∧
      ((∀ r ∈ (globalDB 100 10).quotas, GlobalMatch QuotaTypeSMS LimitTypeDaily r →
        r = globalRow 100 10) → g1 = globalRow 100 10)) ∧
    (GetQuota (Env.ok 0) { quotas := [globalRow 100 10, sampleRow 50 5], usages := [] } "t1"
      QuotaTypeSMS LimitTypeDaily "").quota = some (convertModelToBiz (sampleRow 50 5)) :=
  ⟨(getQuota_fallback 0 (globalDB 100 10) "t1" QuotaTypeSMS LimitTypeDaily "").1
      (by decide) (globalRow 100 10) (by decide) (by decide), by decide⟩

/-! ## CheckQuota -/

/-- C13: with a store that answers its queries, `CheckQuota` is the reference check:
no record resolves and it returns `(no record, false, 0)` without error; a record
resolves and it returns that record with `available = hardLimit - usedCount`
(int32 subtraction, the integer difference when that fits int32) and
`hasQuota = (available > 0)`, so a record at its limit gives
`(record, false, 0)`, which differs from the not-found answer in the record.
The tables are the same after the call. -/
theorem checkQuota_eq_reference (now : Int) (db : DB) (tenantID : String)
    (quotaType : QuotaType) (limitType : LimitType) (productCode : String) :
    CheckQuota (Env.ok now) db tenantID quotaType limitType productCode =
      { quota := (checkReference db.quotas tenantID quotaType limitType productCode).1,
        hasQuota := (checkReference db.quotas tenantID quotaType limitType productCode).2.1,
        available := (checkReference db.quotas tenantID quotaType limitType productCode).2.2,
        err := none, db := db } ∧
    (resolveReference db.quotas tenantID quotaType limitType productCode = none →
      CheckQuota (Env.ok now) db tenantID quotaType limitType productCode =
        { quota := none, hasQuota := false, available := 0, err := none, db := db }) ∧
    (∀ r, resolveReference db.quotas tenantID quotaType limitType productCode = some r →
      CheckQuota (Env.ok now) db tenantID quotaType limitType productCode =
        { quota := some (convertModelToBiz r),
          hasQuota := decide (sub32 r.HardLimit r.UsedCount > 0),
          available := sub32 r.HardLimit r.UsedCount, err := none, db := db } ∧
      (isInt32 (r.HardLimit - r.UsedCount) →
        sub32 r.HardLimit r.UsedCount = r.HardLimit - r.UsedCount) ∧
      (r.HardLimit = r.UsedCount →
        CheckQuota (Env.ok now) db tenantID quotaType limitType productCode =
          { quota := some (convertModelToBiz r), hasQuota := false, available := 0,
            err := none, db := db })) ∧
    (CheckQuota (Env.ok now) db tenantID quotaType limitType productCode).db = db := by
  have hmain : CheckQuota (Env.ok now) db tenantID quotaType limitType productCode =
      { quota := (checkReference db.quotas tenantID quotaType limitType productCode).1,
        hasQuota := (checkReference db.quotas tenantID quotaType limitType productCode).2.1,
        available := (checkReference db.quotas tenantID quotaType limitType productCode).2.2,
        err := none, db := db } := by
    unfold CheckQuota checkReference
    rw [GetQuota_eq_reference]
    cases resolveReference db.quotas tenantID quotaType limitType productCode with
    | none => rfl
    | some r => rfl
  refine ⟨hmain, ?_, ?_, ?_⟩
  · intro hnone
    rw [hmain]
    simp [checkReference, hnone]
  · intro r hr
    have hval : CheckQuota (Env.ok now) db tenantID quotaType limitType productCode =
        { quota := some (convertModelToBiz r),
          hasQuota := decide (sub32 r.HardLimit r.UsedCount > 0),
          available := sub32 r.HardLimit r.UsedCount, err := none, db := db } := by
      rw [hmain]
      simp [checkReference, hr]
    refine ⟨hval, ?_, ?_⟩
    · intro hfit
      unfold sub32
      exact wrap32_of_isInt32 hfit
    · intro hfull
      rw [hval, hfull]
      simp [sub32, wrap32]
  · rw [hmain]

/-! ## consume, then release -/

/-- With the fault-free store, a release on a locked row. -/
theorem ReleaseQuota_ok_pass {now : Int} {db : DB} {tenantID : String}
    {quotaType : QuotaType} {limitType : LimitType} {productCode : String} {m : QuotaModel}
    (hres : ReleaseResolves (Env.ok now) db tenantID quotaType limitType productCode m)
    (amount : Int) (bizID : String) :
    ReleaseQuota (Env.ok now) db tenantID quotaType limitType amount productCode bizID =
      { success := true
        remainingQuota := sub32 m.HardLimit
          (if m.UsedCount < amount then 0 else sub32 m.UsedCount amount)
        err := none
        db :=
          { quotas := Save now
              { m with UsedCount := if m.UsedCount < amount then 0 else sub32 m.UsedCount amount }
              db.quotas
            usages := Create now
              { RecordID := 0, QuotaID := m.QuotaID, TenantID := tenantID,
                OperationType := "RELEASE", DeltaValue := neg32 amount,
                CurrentUsed := if m.UsedCount < amount then 0 else sub32 m.UsedCount amount,
                BizID := bizID, BizType := "",
                Operator := "", OperationTime := 0, ExpireTime := 0, Remark := "" }
              db.usages } } := by
  unfold ReleaseQuota Transaction
  rw [releaseTx_resolved hres]
  simp only [Env.ok, releaseLocked]
  by_cases hlt : m.UsedCount < amount
  · simp only [hlt, if_true]; rfl
  · simp only [hlt, if_false]; rfl

/-- The key of a tenant row leads to the same row, with its new counter, on the
tables a write-back of that row leaves. -/
theorem ReleaseResolves_after_Save {now : Int} {db : DB} {tenantID : String}
    {quotaType : QuotaType} {limitType : LimitType} {productCode : String} {m : QuotaModel}
    (hres : ReleaseResolves (Env.ok now) db tenantID quotaType limitType productCode m)
    (used : Int) (usages : List QuotaUsageModel) :
    ReleaseResolves (Env.ok now)
      { quotas := Save now { m with UsedCount := used } db.quotas, usages := usages }
      tenantID quotaType limitType productCode
      { m with UsedCount := used, UpdatedAt := now } := by
  unfold ReleaseResolves First at hres ⊢
  simp only [Env.ok] at hres ⊢
  cases hf : db.quotas.find? (tenantCond tenantID quotaType limitType productCode) with
  | none => simp [hf] at hres
  | some r =>
    simp only [hf, Found.row.injEq] at hres
    subst hres
    have hc : tenantCond tenantID quotaType limitType productCode
        { r with UsedCount := used, UpdatedAt := now } = true := by
      have := List.find?_some hf
      simpa [tenantCond] using this
    rw [find?_Save_some now { r with UsedCount := used } hf rfl hc]

/-- Round trip on a tenant row: when the row `m` of the key itself is found, its
counter is an int32 that is not negative, and `usedCount + amount` stays in int32, a
consume that passes the check followed by a release of the same amount succeeds
and stores the counter `m` had before the consume. -/
theorem consume_release_restores (now : Int) (db : DB) (tenantID : String)
    (quotaType : QuotaType) (limitType : LimitType) (amount : Int)
    (productCode bizID bizType : String) (m : QuotaModel)
    (hres : ReleaseResolves (Env.ok now) db tenantID quotaType limitType productCode m)
    (hu : 0 ≤ m.UsedCount) (hmax : m.UsedCount ≤ maxInt32)
    (hsum : isInt32 (m.UsedCount + amount))
    (hle : m.UsedCount + amount ≤ m.HardLimit) :
    (ConsumeQuota (Env.ok now) db tenantID quotaType limitType amount productCode bizID
      bizType).err = none ∧
    (ReleaseQuota (Env.ok now)
      (ConsumeQuota (Env.ok now) db tenantID quotaType limitType amount productCode bizID
        bizType).db tenantID quotaType limitType amount productCode bizID).err = none ∧
    (stored (ReleaseQuota (Env.ok now)
      (ConsumeQuota (Env.ok now) db tenantID quotaType limitType amount productCode bizID
        bizType).db tenantID quotaType limitType amount productCode bizID).db m.QuotaID).map
      (fun r => r.UsedCount) = some m.UsedCount := by
  have hadd : add32 m.UsedCount amount = m.UsedCount + amount := by
    unfold add32; exact wrap32_of_isInt32 hsum
  have hcres : ConsumeResolves (Env.ok now) db tenantID quotaType limitType productCode m :=
    Or.inl hres
  have hmem : m ∈ db.quotas := (First_row_mem hres).1
  have hout := ConsumeQuota_ok_pass hcres amount bizID bizType (by rw [hadd]; exact hle)
  have hdb : (ConsumeQuota (Env.ok now) db tenantID quotaType limitType amount productCode bizID
      bizType).db =
      { quotas := Save now { m with UsedCount := add32 m.UsedCount amount } db.quotas
        usages := Create now
          { RecordID := 0, QuotaID := m.QuotaID, TenantID := tenantID,
            OperationType := "CONSUME", DeltaValue := amount,
            CurrentUsed := add32 m.UsedCount amount, BizID := bizID, BizType := bizType,
            Operator := "", OperationTime := 0, ExpireTime := 0, Remark := "" }
          db.usages } := by
    rw [hout]
  have herr : (ConsumeQuota (Env.ok now) db tenantID quotaType limitType amount productCode
      bizID bizType).err = none := by
    rw [hout]
  rw [hdb]
  have hres1 := ReleaseResolves_after_Save hres (add32 m.UsedCount amount)
    (Create now
      { RecordID := 0, QuotaID := m.QuotaID, TenantID := tenantID,
        OperationType := "CONSUME", DeltaValue := amount,
        CurrentUsed := add32 m.UsedCount amount, BizID := bizID, BizType := bizType,
        Operator := "", OperationTime := 0, ExpireTime := 0, Remark := "" }
      db.usages)
  have hrel := ReleaseQuota_ok_pass hres1 amount bizID
  simp only at hrel
  rw [hrel]
  refine ⟨herr, rfl, ?_⟩
  have hback : (if add32 m.UsedCount amount < amount then 0
      else sub32 (add32 m.UsedCount amount) amount) = m.UsedCount := by
    rw [hadd]
    have hnlt : ¬ m.UsedCount + amount < amount := by omega
    simp only [hnlt, if_false]
    unfold sub32
    have : m.UsedCount + amount - amount = m.UsedCount := by omega
    rw [this]
    apply wrap32_of_isInt32
    unfold isInt32 minInt32
    unfold maxInt32 at hmax ⊢
    omega
  rw [hback]
  have hex : ∃ r ∈ Save now { m with UsedCount := add32 m.UsedCount amount } db.quotas,
      r.QuotaID = m.QuotaID := by
    refine ⟨{ m with UsedCount := add32 m.UsedCount amount, UpdatedAt := now }, ?_, rfl⟩
    unfold Save
    rw [List.mem_map]
    exact ⟨m, hmem, by simp⟩
  have hst := stored_Save now
    { m with UsedCount := m.UsedCount, UpdatedAt := now }
    (Save now { m with UsedCount := add32 m.UsedCount amount } db.quotas)
    (Create now
      { RecordID := 0, QuotaID := m.QuotaID, TenantID := tenantID,
        OperationType := "RELEASE", DeltaValue := neg32 amount,
        CurrentUsed := m.UsedCount,
        BizID := bizID, BizType := "",
        Operator := "", OperationTime := 0, ExpireTime := 0, Remark := "" }
      (Create now
        { RecordID := 0, QuotaID := m.QuotaID, TenantID := tenantID,
          OperationType := "CONSUME", DeltaValue := amount,
          CurrentUsed := add32 m.UsedCount amount, BizID := bizID, BizType := bizType,
          Operator := "", OperationTime := 0, ExpireTime := 0, Remark := "" }
        db.usages)) hex
  simp only at hst
  rw [hst]
  rfl

theorem consume_release_restores_witness :
    (stored (ReleaseQuota (Env.ok 0)
      (ConsumeQuota (Env.ok 0) (sampleDB 100 95) "t1" QuotaTypeSMS LimitTypeDaily 5 "" "b"
        "o").db "t1" QuotaTypeSMS LimitTypeDaily 5 "" "b").db (sampleRow 100 95).QuotaID).map
      (fun r => r.UsedCount) = some (sampleRow 100 95).UsedCount :=
  (consume_release_restores 0 (sampleDB 100 95) "t1" QuotaTypeSMS LimitTypeDaily 5 "" "b" "o"
    (sampleRow 100 95) (by decide) (by decide) (by decide) (by decide) (by decide)).2.2

/-- C11 (code bug): on the store holding only the global row
`{hardLimit = 100, usedCount = 10}`, tenant `t1` consumes 5: `ConsumeQuota`
falls back to the global row and succeeds, the row now holds 15. The release of
5 with the same key looks for a tenant row only: it fails with
"quota not found" and the row still holds 15, not 10. -/
theorem release_after_global_consume_not_found :
    ConsumeResolves (Env.ok 0) (globalDB 100 10) "t1" QuotaTypeSMS LimitTypeDaily ""
      (globalRow 100 10) ∧
    (ConsumeQuota (Env.ok 0) (globalDB 100 10) "t1" QuotaTypeSMS LimitTypeDaily 5 "" "b"
      "o").success = true ∧
    (ConsumeQuota (Env.ok 0) (globalDB 100 10) "t1" QuotaTypeSMS LimitTypeDaily 5 "" "b"
      "o").err = none ∧
    (stored (ConsumeQuota (Env.ok 0) (globalDB 100 10) "t1" QuotaTypeSMS LimitTypeDaily 5 "" "b"
      "o").db 2).map (fun r => r.UsedCount) = some 15 ∧
    (ReleaseQuota (Env.ok 0)
      (ConsumeQuota (Env.ok 0) (globalDB 100 10) "t1" QuotaTypeSMS LimitTypeDaily 5 "" "b"
        "o").db "t1" QuotaTypeSMS LimitTypeDaily 5 "" "b").success = false ∧
    (ReleaseQuota (Env.ok 0)
      (ConsumeQuota (Env.ok 0) (globalDB 100 10) "t1" QuotaTypeSMS LimitTypeDaily 5 "" "b"
        "o").db "t1" QuotaTypeSMS LimitTypeDaily 5 "" "b").err = some .quotaNotFound ∧
    (stored (ReleaseQuota (Env.ok 0)
      (ConsumeQuota (Env.ok 0) (globalDB 100 10) "t1" QuotaTypeSMS LimitTypeDaily 5 "" "b"
        "o").db "t1" QuotaTypeSMS LimitTypeDaily 5 "" "b").db 2).map (fun r => r.UsedCount)
      = some 15 := by
  refine ⟨by decide, by decide, by decide, by decide, by decide, by decide, by decide⟩

/-! ## quota not found -/

theorem First_none_notFound_iff {cond : QuotaModel → Bool} {rows : List QuotaModel} :
    First none cond rows = .notFound ↔ ∀ r ∈ rows, cond r = false := by
  unfold First
  cases h : rows.find? cond with
  | some m =>
    constructor
    · intro hc
      exact Found.noConfusion hc
    · intro hall
      have h1 := hall m (List.mem_of_find?_eq_some h)
      rw [List.find?_some h] at h1
      exact Bool.noConfusion h1
  | none =>
    constructor
    · intro _ r hr
      simpa using (List.find?_eq_none.mp h) r hr
    · intro _
      rfl

theorem consumeLocked_err_ne_notFound (env : Env) (tx : DB) (m : QuotaModel) (tenantID : String)
    (amount : Int) (bizID bizType : String) :
    (consumeLocked env tx m tenantID amount bizID bizType).err ≠ some .quotaNotFound := by
  unfold consumeLocked
  split
  · simp
  · simp only
    split
    · simp
    · split <;> simp

theorem Transaction_ok_err (now : Int) (db : DB) (fc : DB → Outcome) :
    (Transaction (Env.ok now) db fc).err = (fc db).err := by
  unfold Transaction
  simp only [Env.ok]
  cases h : (fc db).err with
  | none => simp [h]
  | some e => simp

/-- C14: with a store that answers its calls, `ConsumeQuota` returns the
"quota not found" error exactly when no row matches the key and no global row
has the key's quota type and limit type; it then returns `success = false`,
`remaining = 0` and leaves both tables as they were. When no row matches the
key and a global row exists, the first global row is the one locked: a consume
that passes its check is written to that row, one that does not is refused with
that row's numbers. -/
theorem consumeQuota_not_found_iff (now : Int) (db : DB) (tenantID : String)
    (quotaType : QuotaType) (limitType : LimitType) (amount : Int)
    (productCode bizID bizType : String) :
    ((ConsumeQuota (Env.ok now) db tenantID quotaType limitType amount productCode bizID
        bizType).err = some .quotaNotFound ↔
      (∀ r ∈ db.quotas, ¬ TenantMatch tenantID quotaType limitType productCode r) ∧
      (∀ r ∈ db.quotas, ¬ GlobalMatch quotaType limitType r)) ∧
    ((ConsumeQuota (Env.ok now) db tenantID quotaType limitType amount productCode bizID
        bizType).err = some .quotaNotFound →
      ConsumeQuota (Env.ok now) db tenantID quotaType limitType amount productCode bizID
        bizType = { success := false, remainingQuota := 0, err := some .quotaNotFound, db := db }) ∧
    ((∀ r ∈ db.quotas, ¬ TenantMatch tenantID quotaType limitType productCode r) →
      ∀ g, db.quotas.find? (fun r => decide (GlobalMatch quotaType limitType r)) = some g →
        ConsumeResolves (Env.ok now) db tenantID quotaType limitType productCode g ∧
        (add32 g.UsedCount amount ≤ g.HardLimit →
          (ConsumeQuota (Env.ok now) db tenantID quotaType limitType amount productCode bizID
            bizType).success = true ∧
          stored (ConsumeQuota (Env.ok now) db tenantID quotaType limitType amount productCode
            bizID bizType).db g.QuotaID
            = some { g with UsedCount := add32 g.UsedCount amount, UpdatedAt := now }) ∧
        (add32 g.UsedCount amount > g.HardLimit →
          (ConsumeQuota (Env.ok now) db tenantID quotaType limitType amount productCode bizID
            bizType).err = some (.quotaExceeded g.UsedCount g.HardLimit))) := by
  have hT : First (Env.ok now).findErr (tenantCond tenantID quotaType limitType productCode)
      db.quotas = .notFound ↔
      ∀ r ∈ db.quotas, ¬ TenantMatch tenantID quotaType limitType productCode r := by
    show First none _ _ = _ ↔ _
    rw [First_none_notFound_iff]
    constructor
    · intro h r hr hm
      have := h r hr
      rw [tenantCond_iff.mpr hm] at this
      exact Bool.noConfusion this
    · intro h r hr
      cases hc : tenantCond tenantID quotaType limitType productCode r with
      | false => rfl
      | true => exact absurd (tenantCond_iff.mp hc) (h r hr)
  have hG : First (Env.ok now).findGlobalErr (globalCond quotaType limitType)
      db.quotas = .notFound ↔ ∀ r ∈ db.quotas, ¬ GlobalMatch quotaType limitType r := by
    show First none _ _ = _ ↔ _
    rw [First_none_notFound_iff]
    constructor
    · intro h r hr hm
      have := h r hr
      rw [globalCond_iff.mpr hm] at this
      exact Bool.noConfusion this
    · intro h r hr
      cases hc : globalCond quotaType limitType r with
      | false => rfl
      | true => exact absurd (globalCond_iff.mp hc) (h r hr)
  have hboth : First (Env.ok now).findErr (tenantCond tenantID quotaType limitType productCode)
      db.quotas = .notFound →
      First (Env.ok now).findGlobalErr (globalCond quotaType limitType) db.quotas = .notFound →
      ConsumeQuota (Env.ok now) db tenantID quotaType limitType amount productCode bizID
        bizType = { success := false, remainingQuota := 0, err := some .quotaNotFound, db := db } := by
    intro h1 h2
    unfold ConsumeQuota Transaction consumeTx
    rw [h1]; simp only; rw [h2]
    rfl
  have hconv : (ConsumeQuota (Env.ok now) db tenantID quotaType limitType amount productCode bizID
        bizType).err = some .quotaNotFound →
      First (Env.ok now).findErr (tenantCond tenantID quotaType limitType productCode)
        db.quotas = .notFound ∧
      First (Env.ok now).findGlobalErr (globalCond quotaType limitType) db.quotas
        = .notFound := by
    intro h
    unfold ConsumeQuota at h
    rw [Transaction_ok_err] at h
    cases h1 : First (Env.ok now).findErr (tenantCond tenantID quotaType limitType productCode)
        db.quotas with
    | row m =>
      rw [consumeTx_resolved (Or.inl h1)] at h
      exact absurd h (consumeLocked_err_ne_notFound _ _ _ _ _ _ _)
    | failed msg => simp [consumeTx, h1] at h
    | notFound =>
      cases h2 : First (Env.ok now).findGlobalErr (globalCond quotaType limitType)
          db.quotas with
      | row m =>
        rw [consumeTx_resolved (Or.inr ⟨h1, h2⟩)] at h
        exact absurd h (consumeLocked_err_ne_notFound _ _ _ _ _ _ _)
      | failed msg => simp [consumeTx, h1, h2] at h
      | notFound => exact ⟨rfl, rfl⟩
  refine ⟨⟨?_, ?_⟩, ?_, ?_⟩
  · intro h
    obtain ⟨h1, h2⟩ := hconv h
    exact ⟨hT.mp h1, hG.mp h2⟩
  · rintro ⟨h1, h2⟩
    rw [hboth (hT.mpr h1) (hG.mpr h2)]
  · intro h
    obtain ⟨h1, h2⟩ := hconv h
    exact hboth h1 h2
  · intro hno g hg
    have hres : ConsumeResolves (Env.ok now) db tenantID quotaType limitType productCode g := by
      right
      refine ⟨hT.mpr hno, ?_⟩
      show First none _ _ = _
      unfold First
      rw [globalCond_eq_decide, hg]
    have hmem : g ∈ db.quotas := List.mem_of_find?_eq_some hg
    refine ⟨hres, ?_, ?_⟩
    · intro hle
      rw [ConsumeQuota_ok_pass hres amount bizID bizType hle]
      exact ⟨rfl, stored_Save now { g with UsedCount := add32 g.UsedCount amount } db.quotas _
        ⟨g, hmem, rfl⟩⟩
    · intro hgt
      rw [ConsumeQuota_ok_fail hres amount bizID bizType hgt]

/-- C14 on the store holding only a global row: the consume of tenant `t1` is written
to the global row; on the empty store it fails with "quota not found". -/
theorem consumeQuota_not_found_iff_witness :
    (ConsumeQuota (Env.ok 0) { quotas := [], usages := [] } "t1" QuotaTypeSMS LimitTypeDaily 5
      "" "b" "o").err = some .quotaNotFound ∧
    (ConsumeQuota (Env.ok 0) (globalDB 100 10) "t1" QuotaTypeSMS LimitTypeDaily 5
      "" "b" "o").success = true ∧
    stored (ConsumeQuota (Env.ok 0) (globalDB 100 10) "t1" QuotaTypeSMS LimitTypeDaily 5
      "" "b" "o").db (globalRow 100 10).QuotaID
      = some { globalRow 100 10 with
          UsedCount := add32 (globalRow 100 10).UsedCount 5, UpdatedAt := 0 } :=
  ⟨(consumeQuota_not_found_iff 0 { quotas := [], usages := [] } "t1" QuotaTypeSMS LimitTypeDaily
      5 "" "b" "o").1.mpr ⟨by decide, by decide⟩,
   ((consumeQuota_not_found_iff 0 (globalDB 100 10) "t1" QuotaTypeSMS LimitTypeDaily 5 "" "b"
      "o").2.2 (by decide) (globalRow 100 10) (by decide)).2.1 (by decide)⟩

/-- C15 (code bug): on the store holding only the global row
`{hardLimit = 100, usedCount = 10}`, the key of tenant `t1` resolves to that row
for `GetQuota` and for `ConsumeQuota`, while `ReleaseQuota` with the same key,
which has no second query for the global row, fails with "quota not found" and
leaves the tables as they were. -/
theorem releaseQuota_misses_global_fallback :
    resolveReference (globalDB 100 10).quotas "t1" QuotaTypeSMS LimitTypeDaily ""
      = some (globalRow 100 10) ∧
    (GetQuota (Env.ok 0) (globalDB 100 10) "t1" QuotaTypeSMS LimitTypeDaily "").quota
      = some (convertModelToBiz (globalRow 100 10)) ∧
    ConsumeResolves (Env.ok 0) (globalDB 100 10) "t1" QuotaTypeSMS LimitTypeDaily ""
      (globalRow 100 10) ∧
    ReleaseQuota (Env.ok 0) (globalDB 100 10) "t1" QuotaTypeSMS LimitTypeDaily 5 "" "b"
      = { success := false, remainingQuota := 0, err := some .quotaNotFound,
          db := globalDB 100 10 } := by
  refine ⟨by decide, by decide, by decide, by decide⟩

/-! ## ResetQuotas -/

theorem resetModel_QuotaID (now : Int) (addDate : Int → Int → Int → Int → Int)
    (limitType : LimitType) (m : QuotaModel) :
    (resetModel now addDate limitType m).QuotaID = m.QuotaID := by
  unfold resetModel
  simp only
  split
  · rfl
  · split <;> rfl

/-- Without faults the loop ends without error, and each stored row whose primary
key is that of a due row (the keys of the due rows being distinct) is replaced
by the reset row; every other stored row stays. -/
theorem resetLoop_ok (env : Env) (addDate : Int → Int → Int → Int → Int)
    (limitType : LimitType) :
    ∀ (ms : List QuotaModel) (k : Nat) (tx : DB), (ms.map (fun m => m.QuotaID)).Nodup →
      (resetLoop env addDate LoopFaults.ok limitType k ms tx).err = none ∧
      (resetLoop env addDate LoopFaults.ok limitType k ms tx).db.quotas =
        tx.quotas.map (fun r =>
          match ms.find? (fun m => decide (m.QuotaID = r.QuotaID)) with
          | some m => { resetModel env.now addDate limitType m with UpdatedAt := env.now }
          | none => r) := by
  intro ms
  induction ms with
  | nil =>
    intro k tx _
    simp [resetLoop]
  | cons m ms ih =>
    intro k tx hnd
    rw [List.map_cons, List.nodup_cons] at hnd
    obtain ⟨hnot, hnd1⟩ := hnd
    have hstep : resetLoop env addDate LoopFaults.ok limitType k (m :: ms) tx =
        resetLoop env addDate LoopFaults.ok limitType (k + 1) ms
          { quotas := Save env.now (resetModel env.now addDate limitType m) tx.quotas
            usages := Create env.now
              { RecordID := 0, QuotaID := (resetModel env.now addDate limitType m).QuotaID,
                TenantID := (resetModel env.now addDate limitType m).TenantID,
                OperationType := "RESET",
                DeltaValue := neg32 (resetModel env.now addDate limitType m).UsedCount,
                CurrentUsed := 0, BizID := "", BizType := "", Operator := "",
                OperationTime := 0, ExpireTime := 0,
                Remark := "Scheduled reset for " ++ convertLimitTypeToString limitType
                  ++ " quota" }
              tx.usages } := by
      simp [resetLoop, LoopFaults.ok]
    rw [hstep]
    obtain ⟨he, hq⟩ := ih (k + 1)
      { quotas := Save env.now (resetModel env.now addDate limitType m) tx.quotas
        usages := Create env.now
          { RecordID := 0, QuotaID := (resetModel env.now addDate limitType m).QuotaID,
            TenantID := (resetModel env.now addDate limitType m).TenantID,
            OperationType := "RESET",
            DeltaValue := neg32 (resetModel env.now addDate limitType m).UsedCount,
            CurrentUsed := 0, BizID := "", BizType := "", Operator := "",
            OperationTime := 0, ExpireTime := 0,
            Remark := "Scheduled reset for " ++ convertLimitTypeToString limitType
              ++ " quota" }
          tx.usages } hnd1
    refine ⟨he, ?_⟩
    rw [hq]
    simp only [Save, List.map_map]
    apply List.map_congr_left
    intro r _
    simp only [Function.comp]
    have hfind : ms.find? (fun x => decide (x.QuotaID = m.QuotaID)) = none := by
      rw [List.find?_eq_none]
      intro x hx hxid
      simp only [decide_eq_true_eq] at hxid
      exact hnot (List.mem_map.mpr ⟨x, hx, hxid⟩)
    by_cases hr : r.QuotaID = m.QuotaID
    · have h1 : r.QuotaID = (resetModel env.now addDate limitType m).QuotaID := by
        rw [resetModel_QuotaID]; exact hr
      simp only [h1, if_true]
      simp only [resetModel_QuotaID, List.find?_cons, decide_True, hfind]
    · have h1 : ¬ r.QuotaID = (resetModel env.now addDate limitType m).QuotaID := by
        rw [resetModel_QuotaID]; exact hr
      have h2 : ¬ m.QuotaID = r.QuotaID := fun h => hr h.symm
      simp only [h1, if_false, List.find?_cons, h2, decide_False]

/-- Without faults and with distinct primary keys, `ResetQuotas` returns no error
and replaces exactly the due rows of the limit type by their reset rows. -/
theorem ResetQuotas_ok (now : Int) (addDate : Int → Int → Int → Int → Int) (db : DB)
    (limitType : LimitType) (hpk : (db.quotas.map (fun r => r.QuotaID)).Nodup) :
    (ResetQuotas (Env.ok now) addDate LoopFaults.ok db limitType).err = none ∧
    (ResetQuotas (Env.ok now) addDate LoopFaults.ok db limitType).db.quotas =
      db.quotas.map (fun r =>
        if dueCond now limitType r = true then
          { resetModel now addDate limitType r with UpdatedAt := now }
        else r) := by
  have hnd : ((db.quotas.filter (dueCond now limitType)).map (fun m => m.QuotaID)).Nodup :=
    List.Nodup.sublist (List.Sublist.map _ (List.filter_sublist _)) hpk
  obtain ⟨he, hq⟩ := resetLoop_ok (Env.ok now) addDate limitType
    (db.quotas.filter (dueCond now limitType)) 0 db hnd
  have hrun : ResetQuotas (Env.ok now) addDate LoopFaults.ok db limitType =
      { err := (resetLoop (Env.ok now) addDate LoopFaults.ok limitType 0
          (db.quotas.filter (dueCond now limitType)) db).err
        db := (resetLoop (Env.ok now) addDate LoopFaults.ok limitType 0
          (db.quotas.filter (dueCond now limitType)) db).db } := by
    unfold ResetQuotas Transaction
    simp only [Env.ok] at he ⊢
    simp only [he]
  rw [hrun]
  refine ⟨he, ?_⟩
  simp only
  rw [hq]
  apply List.map_congr_left
  intro r hr
  have hinj := List.inj_on_of_nodup_map hpk
  by_cases hdue : dueCond now limitType r = true
  · have hmem : r ∈ db.quotas.filter (dueCond now limitType) :=
      List.mem_filter.mpr ⟨hr, hdue⟩
    cases hf : (db.quotas.filter (dueCond now limitType)).find?
        (fun m => decide (m.QuotaID = r.QuotaID)) with
    | none =>
      have := (List.find?_eq_none.mp hf) r hmem
      simp at this
    | some x =>
      have hx : x ∈ db.quotas := (List.mem_filter.mp (List.mem_of_find?_eq_some hf)).1
      have hxid : x.QuotaID = r.QuotaID := by simpa using List.find?_some hf
      have : x = r := hinj hx hr hxid
      subst this
      simp [Env.ok, hdue]
  · cases hf : (db.quotas.filter (dueCond now limitType)).find?
        (fun m => decide (m.QuotaID = r.QuotaID)) with
    | none => simp [hdue]
    | some x =>
      have hxm := List.mem_filter.mp (List.mem_of_find?_eq_some hf)
      have hxid : x.QuotaID = r.QuotaID := by simpa using List.find?_some hf
      have : x = r := hinj hxm.1 hr hxid
      subst this
      exact absurd hxm.2 hdue

/-- C16 (counterexample): a daily row with `nextResetTime = 400`, reset at
`now = 1000` on a UTC clock in seconds, ends with `nextResetTime = 87400`, one
day after `now`, and not with `400 + 86400`, one day after its previous value. -/
theorem resetQuotas_next_not_previous_plus_day :
    (stored (ResetQuotas (Env.ok 1000) addDateUTC LoopFaults.ok
      { quotas := [{ sampleRow 100 7 with NextResetTime := 400 }], usages := [] }
      LimitTypeDaily).db 1).map (fun r => (r.UsedCount, r.NextResetTime))
      = some (0, 87400) ∧
    (stored (ResetQuotas (Env.ok 1000) addDateUTC LoopFaults.ok
      { quotas := [{ sampleRow 100 7 with NextResetTime := 400 }], usages := [] }
      LimitTypeDaily).db 1).map (fun r => r.NextResetTime)
      ≠ some (({ sampleRow 100 7 with NextResetTime := 400 } : QuotaModel).NextResetTime
          + oneDay) := by
  refine ⟨by decide, by decide⟩

/-- C16 (amended): `ResetQuotas(daily)` run at time `now` without a store failure, on
rows with distinct primary keys, returns no error; every daily row with
`nextResetTime <= now` ends with `usedCount = 0`, `resetTime = now` and
`nextResetTime = now.AddDate(0, 0, 1)`, one day after the run (and
`updated_at = now`); every other row, of whatever limit type, is left unchanged. -/
theorem resetQuotas_daily (now : Int) (addDate : Int → Int → Int → Int → Int) (db : DB)
    (hpk : (db.quotas.map (fun r => r.QuotaID)).Nodup) :
    (ResetQuotas (Env.ok now) addDate LoopFaults.ok db LimitTypeDaily).err = none ∧
    (ResetQuotas (Env.ok now) addDate LoopFaults.ok db LimitTypeDaily).db.quotas =
      db.quotas.map (fun r =>
        if r.LimitType = "DAILY" ∧ r.NextResetTime ≤ now then
          { r with UsedCount := 0, ResetTime := now, NextResetTime := addDate 0 0 1 now,
                   UpdatedAt := now }
        else r) := by
  obtain ⟨he, hq⟩ := ResetQuotas_ok now addDate db LimitTypeDaily hpk
  refine ⟨he, ?_⟩
  rw [hq]
  apply List.map_congr_left
  intro r _
  have hstr : convertLimitTypeToString LimitTypeDaily = "DAILY" := by decide
  by_cases h : r.LimitType = "DAILY" ∧ r.NextResetTime ≤ now
  · have hd : dueCond now LimitTypeDaily r = true := by
      simp [dueCond, hstr, h.1, h.2]
    rw [if_pos hd, if_pos h]
    simp [resetModel]
  · have hd : ¬ dueCond now LimitTypeDaily r = true := by
      intro hc
      apply h
      simpa [dueCond, hstr] using hc
    rw [if_neg hd, if_neg h]

/-- C16 (amended) on a store with a due daily row, a daily row not yet due and a
monthly row. -/
theorem resetQuotas_daily_witness :
    (ResetQuotas (Env.ok 1000) addDateUTC LoopFaults.ok
      { quotas := [{ sampleRow 100 7 with NextResetTime := 400 },
                   { sampleRow 50 3 with QuotaID := 2, NextResetTime := 5000 },
                   { sampleRow 20 9 with QuotaID := 3, LimitType := "MONTHLY",
                                         NextResetTime := 400 }],
        usages := [] } LimitTypeDaily).db.quotas
      = [{ sampleRow 100 0 with ResetTime := 1000, NextResetTime := 87400, UpdatedAt := 1000 },
         { sampleRow 50 3 with QuotaID := 2, NextResetTime := 5000 },
         { sampleRow 20 9 with QuotaID := 3, LimitType := "MONTHLY", NextResetTime := 400 }] := by
  rw [(resetQuotas_daily 1000 addDateUTC
      { quotas := [{ sampleRow 100 7 with NextResetTime := 400 },
                   { sampleRow 50 3 with QuotaID := 2, NextResetTime := 5000 },
                   { sampleRow 20 9 with QuotaID := 3, LimitType := "MONTHLY",
                                         NextResetTime := 400 }],
        usages := [] } (by decide)).2]
  decide

/-- C17 (code bug): a due daily row with `usedCount = 7` is reset; the one entry
appended has operation type `RESET` and `currentUsed = 0`, but its `deltaValue`
is 0: `-model.UsedCount` is read after the counter was set to 0. The negative
of the counter before the reset is -7. -/
theorem resetQuotas_delta_is_zero :
    (stored { quotas := [{ sampleRow 100 7 with NextResetTime := 400 }], usages := [] } 1).map
      (fun r => r.UsedCount) = some 7 ∧
    (ResetQuotas (Env.ok 1000) addDateUTC LoopFaults.ok
      { quotas := [{ sampleRow 100 7 with NextResetTime := 400 }], usages := [] }
      LimitTypeDaily).err = none ∧
    (ResetQuotas (Env.ok 1000) addDateUTC LoopFaults.ok
      { quotas := [{ sampleRow 100 7 with NextResetTime := 400 }], usages := [] }
      LimitTypeDaily).db.usages.map
        (fun e => (e.QuotaID, e.OperationType, e.CurrentUsed, e.DeltaValue))
      = [(1, "RESET", 0, 0)] ∧
    (0 : Int) ≠ -7 := by
  refine ⟨by decide, by decide, by decide, by decide⟩

/-! ## atomicity -/

/-- A transaction whose closure returns an error with `success = false` returns an
error with `success = false` and restores the tables; the error is the one of
the closure when the transaction could begin. -/
theorem Transaction_fail (env : Env) {db : DB} {fc : DB → Outcome}
    (herr : (fc db).err ≠ none) (hs : (fc db).success = false) :
    (Transaction env db fc).success = false ∧ (Transaction env db fc).err ≠ none ∧
    (Transaction env db fc).db = db ∧
    (env.beginErr = none → (Transaction env db fc).err = (fc db).err) := by
  unfold Transaction
  cases hb : env.beginErr with
  | some msg => simp
  | none =>
    cases he : (fc db).err with
    | none => exact absurd he herr
    | some e => simp [he, hs]

theorem consumeLocked_create_fails {env : Env} {msg : String}
    (hsave : env.saveErr = none) (hcreate : env.createErr = some msg)
    (tx : DB) (m : QuotaModel) (tenantID : String) (amount : Int) (bizID bizType : String) :
    (consumeLocked env tx m tenantID amount bizID bizType).success = false ∧
    (consumeLocked env tx m tenantID amount bizID bizType).err ≠ none ∧
    (add32 m.UsedCount amount ≤ m.HardLimit →
      (consumeLocked env tx m tenantID amount bizID bizType).err = some (.store msg)) := by
  unfold consumeLocked
  by_cases hgt : add32 m.UsedCount amount > m.HardLimit
  · rw [if_pos hgt]
    exact ⟨rfl, by simp, fun h => absurd hgt (by omega)⟩
  · simp [hgt, hsave, hcreate]

theorem releaseLocked_create_fails {env : Env} {msg : String}
    (hsave : env.saveErr = none) (hcreate : env.createErr = some msg)
    (tx : DB) (m : QuotaModel) (tenantID : String) (amount : Int) (bizID : String) :
    (releaseLocked env tx m tenantID amount bizID).success = false ∧
    (releaseLocked env tx m tenantID amount bizID).err = some (.store msg) := by
  unfold releaseLocked
  simp [hsave, hcreate]

/-- C18: when the write-back of the row succeeds and the append of the usage entry
fails, `ConsumeQuota` and `ReleaseQuota` return an error with `success = false`
and leave both tables, hence the stored counter, as they were before the call;
on a locked row that passed the check the error is the one of the append. -/
theorem append_failure_rolls_back (env : Env) (db : DB) (tenantID : String)
    (quotaType : QuotaType) (limitType : LimitType) (amount : Int)
    (productCode bizID bizType : String) (msg : String)
    (hsave : env.saveErr = none) (hcreate : env.createErr = some msg) :
    ((ConsumeQuota env db tenantID quotaType limitType amount productCode bizID
        bizType).success = false ∧
      (ConsumeQuota env db tenantID quotaType limitType amount productCode bizID
        bizType).err ≠ none ∧
      (ConsumeQuota env db tenantID quotaType limitType amount productCode bizID
        bizType).db = db ∧
      (∀ m, env.beginErr = none →
        ConsumeResolves env db tenantID quotaType limitType productCode m →
        add32 m.UsedCount amount ≤ m.HardLimit →
        (ConsumeQuota env db tenantID quotaType limitType amount productCode bizID
          bizType).err = some (.store msg) ∧
        stored (ConsumeQuota env db tenantID quotaType limitType amount productCode bizID
          bizType).db m.QuotaID = stored db m.QuotaID)) ∧
    ((ReleaseQuota env db tenantID quotaType limitType amount productCode bizID).success
        = false ∧
      (ReleaseQuota env db tenantID quotaType limitType amount productCode bizID).err ≠ none ∧
      (ReleaseQuota env db tenantID quotaType limitType amount productCode bizID).db = db ∧
      (∀ m, env.beginErr = none →
        ReleaseResolves env db tenantID quotaType limitType productCode m →
        (ReleaseQuota env db tenantID quotaType limitType amount productCode bizID).err
          = some (.store msg) ∧
        stored (ReleaseQuota env db tenantID quotaType limitType amount productCode
          bizID).db m.QuotaID = stored db m.QuotaID)) := by
  have hc : (consumeTx env tenantID quotaType limitType amount productCode bizID bizType db).err
        ≠ none ∧
      (consumeTx env tenantID quotaType limitType amount productCode bizID bizType db).success
        = false := by
    cases h1 : First env.findErr (tenantCond tenantID quotaType limitType productCode)
        db.quotas with
    | row m =>
      rw [consumeTx_resolved (Or.inl h1)]
      have := consumeLocked_create_fails hsave hcreate db m tenantID amount bizID bizType
      exact ⟨this.2.1, this.1⟩
    | failed e => simp [consumeTx, h1]
    | notFound =>
      cases h2 : First env.findGlobalErr (globalCond quotaType limitType) db.quotas with
      | row m =>
        rw [consumeTx_resolved (Or.inr ⟨h1, h2⟩)]
        have := consumeLocked_create_fails hsave hcreate db m tenantID amount bizID bizType
        exact ⟨this.2.1, this.1⟩
      | failed e => simp [consumeTx, h1, h2]
      | notFound => simp [consumeTx, h1, h2]
  have hr : (releaseTx env tenantID quotaType limitType amount productCode bizID db).err
        ≠ none ∧
      (releaseTx env tenantID quotaType limitType amount productCode bizID db).success
        = false := by
    cases h1 : First env.findErr (tenantCond tenantID quotaType limitType productCode)
        db.quotas with
    | row m =>
      have hres : ReleaseResolves env db tenantID quotaType limitType productCode m := h1
      rw [releaseTx_resolved hres]
      have := releaseLocked_create_fails hsave hcreate db m tenantID amount bizID
      exact ⟨by rw [this.2]; simp, this.1⟩
    | failed e => simp [releaseTx, h1]
    | notFound => simp [releaseTx, h1]
  obtain ⟨c1, c2, c3, c4⟩ := Transaction_fail env hc.1 hc.2
  obtain ⟨r1, r2, r3, r4⟩ := Transaction_fail env hr.1 hr.2
  refine ⟨⟨c1, c2, c3, ?_⟩, ⟨r1, r2, r3, ?_⟩⟩
  · intro m hb hres hle
    refine ⟨?_, ?_⟩
    · unfold ConsumeQuota
      rw [c4 hb, consumeTx_resolved hres]
      exact (consumeLocked_create_fails hsave hcreate db m tenantID amount bizID bizType).2.2 hle
    · unfold ConsumeQuota
      rw [c3]
  · intro m hb hres
    refine ⟨?_, ?_⟩
    · unfold ReleaseQuota
      rw [r4 hb, releaseTx_resolved hres]
      exact (releaseLocked_create_fails hsave hcreate db m tenantID amount bizID).2
    · unfold ReleaseQuota
      rw [r3]

/-- C18 on `{hardLimit = 100, usedCount = 95}` with a store whose append fails. -/
theorem append_failure_rolls_back_witness :
    (ConsumeQuota { Env.ok 0 with createErr := some "insert failed" } (sampleDB 100 95) "t1"
      QuotaTypeSMS LimitTypeDaily 5 "" "b" "o").success = false ∧
    (ConsumeQuota { Env.ok 0 with createErr := some "insert failed" } (sampleDB 100 95) "t1"
      QuotaTypeSMS LimitTypeDaily 5 "" "b" "o").err = some (.store "insert failed") ∧
    (ConsumeQuota { Env.ok 0 with createErr := some "insert failed" } (sampleDB 100 95) "t1"
      QuotaTypeSMS LimitTypeDaily 5 "" "b" "o").db = sampleDB 100 95 ∧
    (ReleaseQuota { Env.ok 0 with createErr := some "insert failed" } (sampleDB 100 95) "t1"
      QuotaTypeSMS LimitTypeDaily 5 "" "b").err = some (.store "insert failed") ∧
    (ReleaseQuota { Env.ok 0 with createErr := some "insert failed" } (sampleDB 100 95) "t1"
      QuotaTypeSMS LimitTypeDaily 5 "" "b").db = sampleDB 100 95 :=
  ⟨(append_failure_rolls_back { Env.ok 0 with createErr := some "insert failed" }
      (sampleDB 100 95) "t1" QuotaTypeSMS LimitTypeDaily 5 "" "b" "o" "insert failed"
      rfl rfl).1.1,
   ((append_failure_rolls_back { Env.ok 0 with createErr := some "insert failed" }
      (sampleDB 100 95) "t1" QuotaTypeSMS LimitTypeDaily 5 "" "b" "o" "insert failed"
      rfl rfl).1.2.2.2 (sampleRow 100 95) rfl (by decide) (by decide)).1,
   (append_failure_rolls_back { Env.ok 0 with createErr := some "insert failed" }
      (sampleDB 100 95) "t1" QuotaTypeSMS LimitTypeDaily 5 "" "b" "o" "insert failed"
      rfl rfl).1.2.2.1,
   ((append_failure_rolls_back { Env.ok 0 with createErr := some "insert failed" }
      (sampleDB 100 95) "t1" QuotaTypeSMS LimitTypeDaily 5 "" "b" "o" "insert failed"
      rfl rfl).2.2.2.2 (sampleRow 100 95) rfl (by decide)).1,
   (append_failure_rolls_back { Env.ok 0 with createErr := some "insert failed" }
      (sampleDB 100 95) "t1" QuotaTypeSMS LimitTypeDaily 5 "" "b" "o" "insert failed"
      rfl rfl).2.2.2.1⟩

/-- The loop stops at the first store call that fails and returns its error. -/
theorem resetLoop_fails (env : Env) (addDate : Int → Int → Int → Int → Int)
    (faults : LoopFaults) (limitType : LimitType) (msg : String) :
    ∀ (ms : List QuotaModel) (j0 : Nat) (tx : DB) (k : Nat), k < ms.length →
      (∀ j < k, faults.saveErrAt (j0 + j) = none ∧ faults.createErrAt (j0 + j) = none) →
      (faults.saveErrAt (j0 + k) = some msg ∨
        (faults.saveErrAt (j0 + k) = none ∧ faults.createErrAt (j0 + k) = some msg)) →
      (resetLoop env addDate faults limitType j0 ms tx).err = some (.store msg) ∧
      (resetLoop env addDate faults limitType j0 ms tx).success = false := by
  intro ms
  induction ms with
  | nil =>
    intro j0 tx k hk
    simp at hk
  | cons m ms ih =>
    intro j0 tx k hk hbefore hfail
    cases k with
    | zero =>
      simp only [Nat.add_zero] at hfail
      rcases hfail with hs | ⟨hs, hc⟩
      · simp [resetLoop, hs]
      · simp [resetLoop, hs, hc]
    | succ k =>
      have h0 := hbefore 0 (Nat.succ_pos k)
      simp only [Nat.add_zero] at h0
      have hk1 : k < ms.length := by
        simp only [List.length_cons] at hk
        omega
      have hstep : resetLoop env addDate faults limitType j0 (m :: ms) tx =
          resetLoop env addDate faults limitType (j0 + 1) ms
            { quotas := Save env.now (resetModel env.now addDate limitType m) tx.quotas
              usages := Create env.now
                { RecordID := 0, QuotaID := (resetModel env.now addDate limitType m).QuotaID,
                  TenantID := (resetModel env.now addDate limitType m).TenantID,
                  OperationType := "RESET",
                  DeltaValue := neg32 (resetModel env.now addDate limitType m).UsedCount,
                  CurrentUsed := 0, BizID := "", BizType := "", Operator := "",
                  OperationTime := 0, ExpireTime := 0,
                  Remark := "Scheduled reset for " ++ convertLimitTypeToString limitType
                    ++ " quota" }
                tx.usages } := by
        simp [resetLoop, h0.1, h0.2]
      rw [hstep]
      apply ih (j0 + 1) _ k hk1
      · intro j hj
        have := hbefore (j + 1) (by omega)
        have e : j0 + 1 + j = j0 + (j + 1) := by omega
        rw [e]
        exact this
      · have e : j0 + 1 + k = j0 + (k + 1) := by omega
        rw [e]
        exact hfail

/-- C19: when, in the loop over the due rows, the write-back of a row or the append
of its reset entry fails (and every store call of the loop before it succeeded),
`ResetQuotas` returns that error, not nil, and leaves both tables as they were
before the call: no reset of a row and no reset entry of the call is kept. -/
theorem resetQuotas_row_failure (env : Env) (addDate : Int → Int → Int → Int → Int)
    (faults : LoopFaults) (db : DB) (limitType : LimitType) (k : Nat) (msg : String)
    (hfind : env.findErr = none) (hbegin : env.beginErr = none)
    (hk : k < (db.quotas.filter (dueCond env.now limitType)).length)
    (hbefore : ∀ j < k, faults.saveErrAt j = none ∧ faults.createErrAt j = none)
    (hfail : faults.saveErrAt k = some msg ∨
      (faults.saveErrAt k = none ∧ faults.createErrAt k = some msg)) :
    (ResetQuotas env addDate faults db limitType).err = some (.store msg) ∧
    (ResetQuotas env addDate faults db limitType).db = db := by
  obtain ⟨he, hs⟩ := resetLoop_fails env addDate faults limitType msg
    (db.quotas.filter (dueCond env.now limitType)) 0 db k hk
    (by intro j hj; simpa using hbefore j hj) (by simpa using hfail)
  have hne : (resetLoop env addDate faults limitType 0
      (db.quotas.filter (dueCond env.now limitType)) db).err ≠ none := by
    rw [he]; simp
  obtain ⟨_, _, t3, t4⟩ := Transaction_fail env hne hs
  unfold ResetQuotas
  simp only [hfind]
  exact ⟨by rw [t4 hbegin, he], t3⟩

/-- C19 on two due daily rows, the append for the second one failing: the error is
returned and the reset of the first row is not kept. -/
theorem resetQuotas_row_failure_witness :
    (ResetQuotas (Env.ok 1000) addDateUTC secondAppendFails
      { quotas := [{ sampleRow 100 7 with NextResetTime := 400 },
                   { sampleRow 50 3 with QuotaID := 2, NextResetTime := 500 }],
        usages := [] } LimitTypeDaily).err = some (.store "insert failed") ∧
    (ResetQuotas (Env.ok 1000) addDateUTC secondAppendFails
      { quotas := [{ sampleRow 100 7 with NextResetTime := 400 },
                   { sampleRow 50 3 with QuotaID := 2, NextResetTime := 500 }],
        usages := [] } LimitTypeDaily).db
      = { quotas := [{ sampleRow 100 7 with NextResetTime := 400 },
                     { sampleRow 50 3 with QuotaID := 2, NextResetTime := 500 }],
          usages := [] } :=
  resetQuotas_row_failure (Env.ok 1000) addDateUTC secondAppendFails
    { quotas := [{ sampleRow 100 7 with NextResetTime := 400 },
                 { sampleRow 50 3 with QuotaID := 2, NextResetTime := 500 }],
      usages := [] } LimitTypeDaily 1 "insert failed" rfl rfl (by decide)
    (by intro j hj; have h0 : j = 0 := by omega
        subst h0; exact ⟨rfl, rfl⟩)
    (Or.inr ⟨rfl, rfl⟩)

/-! ## the facade -/

theorem consumeLocked_flag (env : Env) (tx : DB) (m : QuotaModel) (tenantID : String)
    (amount : Int) (bizID bizType : String) :
    (consumeLocked env tx m tenantID amount bizID bizType).success = true ↔
      (consumeLocked env tx m tenantID amount bizID bizType).err = none := by
  unfold consumeLocked
  split
  · simp
  · simp only
    split
    · simp
    · split <;> simp

theorem releaseLocked_flag (env : Env) (tx : DB) (m : QuotaModel) (tenantID : String)
    (amount : Int) (bizID : String) :
    (releaseLocked env tx m tenantID amount bizID).success = true ↔
      (releaseLocked env tx m tenantID amount bizID).err = none := by
  unfold releaseLocked
  simp only
  split
  · simp
  · split <;> simp

theorem consumeTx_flag (env : Env) (tenantID : String) (quotaType : QuotaType)
    (limitType : LimitType) (amount : Int) (productCode bizID bizType : String) (db : DB) :
    (consumeTx env tenantID quotaType limitType amount productCode bizID bizType db).success
        = true ↔
      (consumeTx env tenantID quotaType limitType amount productCode bizID bizType db).err
        = none := by
  unfold consumeTx
  split
  · exact consumeLocked_flag _ _ _ _ _ _ _
  · simp
  · split
    · exact consumeLocked_flag _ _ _ _ _ _ _
    · simp
    · simp

theorem releaseTx_flag (env : Env) (tenantID : String) (quotaType : QuotaType)
    (limitType : LimitType) (amount : Int) (productCode bizID : String) (db : DB) :
    (releaseTx env tenantID quotaType limitType amount productCode bizID db).success = true ↔
      (releaseTx env tenantID quotaType limitType amount productCode bizID db).err = none := by
  unfold releaseTx
  split
  · exact releaseLocked_flag _ _ _ _ _ _
  · simp
  · simp

/-- When the commit cannot fail, a transaction keeps the agreement of the closure
between its flag and its error. -/
theorem Transaction_flag {env : Env} {db : DB} {fc : DB → Outcome}
    (hcommit : env.commitErr = none)
    (h : (fc db).success = true ↔ (fc db).err = none) :
    (Transaction env db fc).success = true ↔ (Transaction env db fc).err = none := by
  unfold Transaction
  cases hb : env.beginErr with
  | some msg => simp
  | none =>
    cases he : (fc db).err with
    | some e =>
      have hs : (fc db).success = false := by
        cases hsv : (fc db).success with
        | false => rfl
        | true => rw [h.mp hsv] at he; exact Option.noConfusion he
      simp [he, hs]
    | none =>
      simp only [he, hcommit]
      rw [h, he]
      simp

/-- With a store whose commit succeeds, the two handlers return no RPC error, a
reply whose `Message` is the text of the engine's error, or empty without one,
and whose `Success` is true exactly when the engine returned no error. -/
theorem Service_reply_of_commit_ok (pb : PbEnums) (env : Env) (db : DB) (req : QuotaRequest)
    (hcommit : env.commitErr = none) :
    (∃ reply, (Service.ConsumeQuota pb env db req).reply = some reply ∧
      (Service.ConsumeQuota pb env db req).rpcErr = none ∧
      (reply.Success = true ↔
        (QuotaUsecase.ConsumeQuota env db req.TenantId
          (Service.convertQuotaTypeToEnum pb req.QuotaType)
          (Service.convertLimitTypeToEnum pb req.LimitType)
          req.Amount req.ProductCode req.BizId req.BizType).err = none)) ∧
    (∃ reply, (Service.ReleaseQuota pb env db req).reply = some reply ∧
      (Service.ReleaseQuota pb env db req).rpcErr = none ∧
      (reply.Success = true ↔
        (QuotaUsecase.ReleaseQuota env db req.TenantId
          (Service.convertQuotaTypeToEnum pb req.QuotaType)
          (Service.convertLimitTypeToEnum pb req.LimitType)
          req.Amount req.ProductCode req.BizId).err = none)) := by
  constructor
  · refine ⟨_, rfl, rfl, ?_⟩
    exact Transaction_flag hcommit (consumeTx_flag _ _ _ _ _ _ _ _ _)
  · refine ⟨_, rfl, rfl, ?_⟩
    exact Transaction_flag hcommit (releaseTx_flag _ _ _ _ _ _ _ _)

theorem Service_reply_of_commit_ok_witness :
    ∃ reply, (Service.ConsumeQuota samplePb (Env.ok 0) (sampleDB 100 95)
        { TenantId := "t1", QuotaType := 3, LimitType := 1, Amount := 10, ProductCode := "",
          BizId := "b", BizType := "o" }).reply = some reply ∧
      (Service.ConsumeQuota samplePb (Env.ok 0) (sampleDB 100 95)
        { TenantId := "t1", QuotaType := 3, LimitType := 1, Amount := 10, ProductCode := "",
          BizId := "b", BizType := "o" }).rpcErr = none ∧
      (reply.Success = true ↔
        (QuotaUsecase.ConsumeQuota (Env.ok 0) (sampleDB 100 95) "t1"
          (Service.convertQuotaTypeToEnum samplePb 3)
          (Service.convertLimitTypeToEnum samplePb 1) 10 "" "b" "o").err = none) :=
  (Service_reply_of_commit_ok samplePb (Env.ok 0) (sampleDB 100 95)
    { TenantId := "t1", QuotaType := 3, LimitType := 1, Amount := 10, ProductCode := "",
      BizId := "b", BizType := "o" } rfl).1

/-- C20 (code bug): the request consume 5 on `{hardLimit = 100, usedCount = 95}` with a
store whose commit fails. The closure set `success = true` before returning
nil, `Transaction` returns the error of the commit and rolls back: the engine
returns `(true, 0, error)`, and the handler replies without RPC error
`Success = true` together with `Message = "commit failed"`, the counter being
still 95. -/
theorem service_success_with_engine_error :
    (QuotaUsecase.ConsumeQuota { Env.ok 0 with commitErr := some "commit failed" }
      (sampleDB 100 95) "t1" (Service.convertQuotaTypeToEnum samplePb 3)
      (Service.convertLimitTypeToEnum samplePb 1) 5 "" "b" "o").err
      = some (.store "commit failed") ∧
    (Service.ConsumeQuota samplePb { Env.ok 0 with commitErr := some "commit failed" }
      (sampleDB 100 95)
      { TenantId := "t1", QuotaType := 3, LimitType := 1, Amount := 5, ProductCode := "",
        BizId := "b", BizType := "o" }).rpcErr = none ∧
    (Service.ConsumeQuota samplePb { Env.ok 0 with commitErr := some "commit failed" }
      (sampleDB 100 95)
      { TenantId := "t1", QuotaType := 3, LimitType := 1, Amount := 5, ProductCode := "",
        BizId := "b", BizType := "o" }).reply
      = some { Success := true, RemainingQuota := 0, Message := "commit failed" } ∧
    (Service.ConsumeQuota samplePb { Env.ok 0 with commitErr := some "commit failed" }
      (sampleDB 100 95)
      { TenantId := "t1", QuotaType := 3, LimitType := 1, Amount := 5, ProductCode := "",
        BizId := "b", BizType := "o" }).db = sampleDB 100 95 ∧
    (Service.ReleaseQuota samplePb { Env.ok 0 with commitErr := some "commit failed" }
      (sampleDB 100 95)
      { TenantId := "t1", QuotaType := 3, LimitType := 1, Amount := 5, ProductCode := "",
        BizId := "b", BizType := "" }).reply
      = some { Success := true, RemainingQuota := 10, Message := "commit failed" } := by
  refine ⟨by decide, by decide, by decide, by decide, by decide⟩

/-! ## monotonicity of consume -/

/-- C21 (counterexample): on the row `{hardLimit = 100, usedCount = 10}` a consume of
`amount = -3` passes the check (`10 - 3 <= 100`), succeeds and stores
`usedCount = 7`, below the 10 stored before. -/
theorem consumeQuota_negative_amount_decreases :
    isInt32 (-3) ∧
    (ConsumeQuota (Env.ok 0) (sampleDB 100 10) "t1" QuotaTypeSMS LimitTypeDaily (-3) "" "b"
      "o").success = true ∧
    (ConsumeQuota (Env.ok 0) (sampleDB 100 10) "t1" QuotaTypeSMS LimitTypeDaily (-3) "" "b"
      "o").err = none ∧
    (stored (sampleDB 100 10) 1).map (fun r => r.UsedCount) = some 10 ∧
    (stored (ConsumeQuota (Env.ok 0) (sampleDB 100 10) "t1" QuotaTypeSMS LimitTypeDaily (-3) ""
      "b" "o").db 1).map (fun r => r.UsedCount) = some 7 ∧
    ¬ ((7 : Int) ≥ 10) := by
  refine ⟨by decide, by decide, by decide, by decide, by decide, by decide⟩

/-- C21 (amended): a `ConsumeQuota` of an amount that is not negative and that
succeeds (it returns no error) never decreases the stored counter, as long as
`usedCount + amount` does not pass the largest int32: the stored row then holds
exactly `usedCount + amount`. -/
theorem consumeQuota_monotone (env : Env) (db : DB) (tenantID : String)
    (quotaType : QuotaType) (limitType : LimitType) (amount : Int)
    (productCode bizID bizType : String)
    (herr : (ConsumeQuota env db tenantID quotaType limitType amount productCode bizID
      bizType).err = none)
    (ha : 0 ≤ amount) :
    ∃ m r, ConsumeResolves env db tenantID quotaType limitType productCode m ∧
      stored (ConsumeQuota env db tenantID quotaType limitType amount productCode bizID
        bizType).db m.QuotaID = some r ∧
      (isInt32 m.UsedCount → m.UsedCount + amount ≤ maxInt32 →
        r.UsedCount = m.UsedCount + amount ∧ m.UsedCount ≤ r.UsedCount) := by
  obtain ⟨m, hres, hmem, _, heq⟩ := ConsumeQuota_err_none herr
  rw [heq]
  refine ⟨m, { m with UsedCount := add32 m.UsedCount amount, UpdatedAt := env.now }, hres,
    ?_, ?_⟩
  · exact stored_Save env.now { m with UsedCount := add32 m.UsedCount amount } db.quotas _
      ⟨m, hmem, rfl⟩
  · intro hu hfit
    have hadd : add32 m.UsedCount amount = m.UsedCount + amount := by
      unfold add32
      apply wrap32_of_isInt32
      unfold isInt32 at hu ⊢
      unfold minInt32 at hu ⊢
      unfold maxInt32 at hfit ⊢
      omega
    show add32 m.UsedCount amount = m.UsedCount + amount ∧
      m.UsedCount ≤ add32 m.UsedCount amount
    rw [hadd]
    exact ⟨rfl, by omega⟩

/-- C21 (amended) at the scenario of the specification: consume 5 on
`{hardLimit = 100, usedCount = 95}`. -/
theorem consumeQuota_monotone_witness :
    ∃ m r, ConsumeResolves (Env.ok 0) (sampleDB 100 95) "t1" QuotaTypeSMS LimitTypeDaily "" m ∧
      stored (ConsumeQuota (Env.ok 0) (sampleDB 100 95) "t1" QuotaTypeSMS LimitTypeDaily 5 ""
        "b" "o").db m.QuotaID = some r ∧
      (isInt32 m.UsedCount → m.UsedCount + 5 ≤ maxInt32 →
        r.UsedCount = m.UsedCount + 5 ∧ m.UsedCount ≤ r.UsedCount) :=
  consumeQuota_monotone (Env.ok 0) (sampleDB 100 95) "t1" QuotaTypeSMS LimitTypeDaily 5 "" "b"
    "o" (by decide) (by decide)

/-! ## enum conversions -/

/-- C22: a string that is none of the recognised symbols is converted to the
Unspecified value, which is 0, by `convertQuotaTypeToEnum`,
`convertLimitTypeToEnum` and `convertOperationTypeToEnum`; `convertModelToBiz`
turns a row with such a stored quota type or limit type into a record with the
Unspecified value, and `GetQuota` on a store that answers its queries returns
no error whatever types are stored. -/
theorem convert_unknown_to_unspecified :
    (∀ s : String, s ≠ "MARKETING_CAMPAIGN" → s ≠ "REDEEM_CODE" → s ≠ "SMS" →
      convertQuotaTypeToEnum s = QuotaTypeUnspecified) ∧
    (∀ s : String, s ≠ "DAILY" → s ≠ "MONTHLY" → s ≠ "TOTAL" → s ≠ "CONCURRENT" →
      convertLimitTypeToEnum s = LimitTypeUnspecified) ∧
    (∀ s : String, s ≠ "CONSUME" → s ≠ "RELEASE" → s ≠ "ADJUST" →
      convertOperationTypeToEnum s = OperationTypeUnspecified) ∧
    (QuotaTypeUnspecified = 0 ∧ LimitTypeUnspecified = 0 ∧ OperationTypeUnspecified = 0) ∧
    (∀ m : QuotaModel,
      m.QuotaType ≠ "MARKETING_CAMPAIGN" → m.QuotaType ≠ "REDEEM_CODE" → m.QuotaType ≠ "SMS" →
      (convertModelToBiz m).QuotaType = QuotaTypeUnspecified) ∧
    (∀ m : QuotaModel,
      m.LimitType ≠ "DAILY" → m.LimitType ≠ "MONTHLY" → m.LimitType ≠ "TOTAL" →
      m.LimitType ≠ "CONCURRENT" →
      (convertModelToBiz m).LimitType = LimitTypeUnspecified) ∧
    (∀ (now : Int) (db : DB) (tenantID : String) (quotaType : QuotaType)
      (limitType : LimitType) (productCode : String),
      (GetQuota (Env.ok now) db tenantID quotaType limitType productCode).err = none) := by
  refine ⟨?_, ?_, ?_, ⟨rfl, rfl, rfl⟩, ?_, ?_, ?_⟩
  · intro s h1 h2 h3
    simp [convertQuotaTypeToEnum, h1, h2, h3]
  · intro s h1 h2 h3 h4
    simp [convertLimitTypeToEnum, h1, h2, h3, h4]
  · intro s h1 h2 h3
    simp [convertOperationTypeToEnum, h1, h2, h3]
  · intro m h1 h2 h3
    simp [convertModelToBiz, convertQuotaTypeToEnum, h1, h2, h3]
  · intro m h1 h2 h3 h4
    simp [convertModelToBiz, convertLimitTypeToEnum, h1, h2, h3, h4]
  · intro now db tenantID quotaType limitType productCode
    rw [GetQuota_eq_reference]

/-- C22 on the stored strings `"EMAIL"`, `"WEEKLY"` and `"RESET"`. -/
theorem convert_unknown_to_unspecified_witness :
    convertQuotaTypeToEnum "EMAIL" = QuotaTypeUnspecified ∧
    convertLimitTypeToEnum "WEEKLY" = LimitTypeUnspecified ∧
    convertOperationTypeToEnum "RESET" = OperationTypeUnspecified :=
  ⟨convert_unknown_to_unspecified.1 "EMAIL" (by decide) (by decide) (by decide),
   convert_unknown_to_unspecified.2.1 "WEEKLY" (by decide) (by decide) (by decide) (by decide),
   convert_unknown_to_unspecified.2.2.1 "RESET" (by decide) (by decide) (by decide)⟩

/-- C23 (counterexample): the int32 value 7 of `QuotaType` is none of the declared
constants; `convertQuotaTypeToString` maps it to `"UNSPECIFIED"`, the string of
the constant 0, and `convertQuotaTypeToEnum` maps that string back to 0, not
to 7. The same holds for `LimitType` and `OperationType`. -/
theorem convert_roundtrip_fails_off_constants :
    isInt32 7 ∧
    convertQuotaTypeToEnum (convertQuotaTypeToString 7) ≠ 7 ∧
    ((7 : QuotaType) ≠ QuotaTypeUnspecified ∧
      convertQuotaTypeToString 7 = convertQuotaTypeToString QuotaTypeUnspecified) ∧
    convertLimitTypeToEnum (convertLimitTypeToString 7) ≠ 7 ∧
    ((7 : LimitType) ≠ LimitTypeUnspecified ∧
      convertLimitTypeToString 7 = convertLimitTypeToString LimitTypeUnspecified) ∧
    convertOperationTypeToEnum (convertOperationTypeToString 7) ≠ 7 ∧
    ((7 : OperationType) ≠ OperationTypeUnspecified ∧
      convertOperationTypeToString 7 = convertOperationTypeToString OperationTypeUnspecified) := by
  refine ⟨by decide, by decide, ⟨by decide, by decide⟩, by decide, ⟨by decide, by decide⟩,
    by decide, ⟨by decide, by decide⟩⟩

/-- C23 (amended): on the declared constants of `QuotaType`, `LimitType` and
`OperationType`, Unspecified included, the mapping to the persisted symbol
round-trips, `convertXToEnum (convertXToString v) = v`, and is injective; every
other value is mapped to `"UNSPECIFIED"`, so that the mapping is total. -/
theorem convert_roundtrip_on_constants :
    ((∀ v ∈ quotaTypeValues, convertQuotaTypeToEnum (convertQuotaTypeToString v) = v) ∧
      (∀ v ∈ quotaTypeValues, ∀ w ∈ quotaTypeValues,
        convertQuotaTypeToString v = convertQuotaTypeToString w → v = w) ∧
      (∀ v : QuotaType, v ∉ quotaTypeValues → convertQuotaTypeToString v = "UNSPECIFIED")) ∧
    ((∀ v ∈ limitTypeValues, convertLimitTypeToEnum (convertLimitTypeToString v) = v) ∧
      (∀ v ∈ limitTypeValues, ∀ w ∈ limitTypeValues,
        convertLimitTypeToString v = convertLimitTypeToString w → v = w) ∧
      (∀ v : LimitType, v ∉ limitTypeValues → convertLimitTypeToString v = "UNSPECIFIED")) ∧
    ((∀ v ∈ operationTypeValues,
        convertOperationTypeToEnum (convertOperationTypeToString v) = v) ∧
      (∀ v ∈ operationTypeValues, ∀ w ∈ operationTypeValues,
        convertOperationTypeToString v = convertOperationTypeToString w → v = w) ∧
      (∀ v : OperationType, v ∉ operationTypeValues →
        convertOperationTypeToString v = "UNSPECIFIED")) := by
  refine ⟨⟨by decide, by decide, ?_⟩, ⟨by decide, by decide, ?_⟩, ⟨by decide, by decide, ?_⟩⟩
  · intro v hv
    simp only [quotaTypeValues, List.mem_cons, List.mem_singleton, List.not_mem_nil, or_false,
      not_or] at hv
    simp [convertQuotaTypeToString, hv.2.1, hv.2.2.1, hv.2.2.2]
  · intro v hv
    simp only [limitTypeValues, List.mem_cons, List.mem_singleton, List.not_mem_nil, or_false,
      not_or] at hv
    simp [convertLimitTypeToString, hv.2.1, hv.2.2.1, hv.2.2.2.1, hv.2.2.2.2]
  · intro v hv
    simp only [operationTypeValues, List.mem_cons, List.mem_singleton, List.not_mem_nil,
      or_false, not_or] at hv
    simp [convertOperationTypeToString, hv.2.1, hv.2.2.1, hv.2.2.2]

/-- C23 (amended) at the constants `QuotaTypeSMS`, `LimitTypeConcurrent` and
`OperationTypeAdjust`. -/
theorem convert_roundtrip_on_constants_witness :
    convertQuotaTypeToEnum (convertQuotaTypeToString QuotaTypeSMS) = QuotaTypeSMS ∧
    convertLimitTypeToEnum (convertLimitTypeToString LimitTypeConcurrent)
      = LimitTypeConcurrent ∧
    convertOperationTypeToEnum (convertOperationTypeToString OperationTypeAdjust)
      = OperationTypeAdjust :=
  ⟨convert_roundtrip_on_constants.1.1 QuotaTypeSMS (by decide),
   convert_roundtrip_on_constants.2.1.1 LimitTypeConcurrent (by decide),
   convert_roundtrip_on_constants.2.2.1 OperationTypeAdjust (by decide)⟩

/-- C24 (code bug): the entry that `ResetQuotas` appends for a due row carries the
operation type `"RESET"`, written as a literal; `convertOperationTypeToEnum`
has no case for it and returns Unspecified, whose string is `"UNSPECIFIED"`. The
strings written by `ConsumeQuota` and `ReleaseQuota` are recognised and come
back unchanged. -/
theorem reset_operation_type_not_recognised :
    (ResetQuotas (Env.ok 1000) addDateUTC LoopFaults.ok
      { quotas := [{ sampleRow 100 7 with NextResetTime := 400 }], usages := [] }
      LimitTypeDaily).db.usages.map (fun e => e.OperationType) = ["RESET"] ∧
    convertOperationTypeToEnum "RESET" = OperationTypeUnspecified ∧
    convertOperationTypeToString (convertOperationTypeToEnum "RESET") = "UNSPECIFIED" ∧
    convertOperationTypeToString (convertOperationTypeToEnum "RESET") ≠ "RESET" ∧
    ((ConsumeQuota (Env.ok 0) (sampleDB 100 95) "t1" QuotaTypeSMS LimitTypeDaily 5 "" "b"
        "o").db.usages.map (fun e => e.OperationType) = ["CONSUME"] ∧
      convertOperationTypeToEnum "CONSUME" = OperationTypeConsume ∧
      convertOperationTypeToString (convertOperationTypeToEnum "CONSUME") = "CONSUME") ∧
    ((ReleaseQuota (Env.ok 0) (sampleDB 100 95) "t1" QuotaTypeSMS LimitTypeDaily 5 ""
        "b").db.usages.map (fun e => e.OperationType) = ["RELEASE"] ∧
      convertOperationTypeToEnum "RELEASE" = OperationTypeRelease ∧
      convertOperationTypeToString (convertOperationTypeToEnum "RELEASE") = "RELEASE") := by
  refine ⟨by decide, by decide, by decide, by decide, ⟨by decide, by decide, by decide⟩,
    ⟨by decide, by decide, by decide⟩⟩

/-! ## check, then consume -/

/-- The row of the reference lookup is the row `ConsumeQuota` locks. -/
theorem ConsumeResolves_of_reference {now : Int} {db : DB} {tenantID : String}
    {quotaType : QuotaType} {limitType : LimitType} {productCode : String} {r : QuotaModel}
    (h : resolveReference db.quotas tenantID quotaType limitType productCode = some r) :
    ConsumeResolves (Env.ok now) db tenantID quotaType limitType productCode r := by
  unfold ConsumeResolves First
  simp only [Env.ok]
  rw [tenantCond_eq_decide, globalCond_eq_decide]
  unfold resolveReference at h
  cases h1 : db.quotas.find?
      (fun r => decide (TenantMatch tenantID quotaType limitType productCode r)) with
  | some t =>
    simp only [h1, Option.some.injEq] at h
    subst h
    exact Or.inl rfl
  | none =>
    simp only [h1] at h
    right
    simp [h]

/-- With a store that answers its queries, `CheckQuota` on a key whose lookup finds
the row `r`. -/
theorem CheckQuota_of_reference {now : Int} {db : DB} {tenantID : String}
    {quotaType : QuotaType} {limitType : LimitType} {productCode : String} :
    CheckQuota (Env.ok now) db tenantID quotaType limitType productCode =
      match resolveReference db.quotas tenantID quotaType limitType productCode with
      | none => { quota := none, hasQuota := false, available := 0, err := none, db := db }
      | some r =>
        { quota := some (convertModelToBiz r),
          hasQuota := decide (sub32 r.HardLimit r.UsedCount > 0),
          available := sub32 r.HardLimit r.UsedCount, err := none, db := db } := by
  unfold CheckQuota
  rw [GetQuota_eq_reference]
  cases resolveReference db.quotas tenantID quotaType limitType productCode with
  | none => rfl
  | some r => rfl

/-- The int32 arithmetic behind check-then-consume: when `hardLimit - usedCount` is
not below the smallest int32 and `0 <= amount <= available`, neither the sum of
the check nor the two differences wrap. -/
theorem check_consume_arith (hard used amount : Int) (hh : isInt32 hard) (hu : isInt32 used)
    (hfit : minInt32 ≤ hard - used) (ha : 0 ≤ amount) (hav : amount ≤ sub32 hard used) :
    add32 used amount = used + amount ∧ used + amount ≤ hard ∧
    sub32 hard (used + amount) = sub32 hard used - amount := by
  unfold isInt32 minInt32 maxInt32 at hh hu
  unfold minInt32 at hfit
  unfold sub32 wrap32 at hav ⊢
  unfold add32 wrap32
  omega

/-- C25 (counterexample): on the row `{hardLimit = -2147483648, usedCount = 1}`
`CheckQuota` computes `hardLimit - usedCount` in int32, which wraps: it returns the
record with `available = 2147483647` and `hasQuota = true`. A consume of 5 with
the same key, `0 <= 5 <= available`, is refused with "quota exceeded". -/
theorem check_passes_consume_refused :
    (CheckQuota (Env.ok 0) (sampleDB (-2147483648) 1) "t1" QuotaTypeSMS LimitTypeDaily
      "").quota = some (convertModelToBiz (sampleRow (-2147483648) 1)) ∧
    (CheckQuota (Env.ok 0) (sampleDB (-2147483648) 1) "t1" QuotaTypeSMS LimitTypeDaily
      "").available = 2147483647 ∧
    (0 : Int) ≤ 5 ∧
    (5 : Int) ≤ (CheckQuota (Env.ok 0) (sampleDB (-2147483648) 1) "t1" QuotaTypeSMS
      LimitTypeDaily "").available ∧
    (ConsumeQuota (Env.ok 0) (sampleDB (-2147483648) 1) "t1" QuotaTypeSMS LimitTypeDaily 5 ""
      "b" "o").success = false ∧
    (ConsumeQuota (Env.ok 0) (sampleDB (-2147483648) 1) "t1" QuotaTypeSMS LimitTypeDaily 5 ""
      "b" "o").err = some (.quotaExceeded 1 (-2147483648)) := by
  refine ⟨by decide, by decide, by decide, by decide, by decide, by decide⟩

/-- C25 (amended): with a store that reports no failure, when `CheckQuota` returns a
record `q` with int32 fields whose `hardLimit - usedCount` is not below the
smallest int32 (so for every record with `hardLimit >= 0`) and
`available >= amount >= 0`, a `ConsumeQuota` with the same key and amount on the
same tables succeeds, locks and writes the row with the primary key of `q`, logs
that key, and returns `remaining = available - amount`. -/
theorem check_then_consume (now : Int) (db : DB) (tenantID : String)
    (quotaType : QuotaType) (limitType : LimitType) (amount : Int)
    (productCode bizID bizType : String) (q : QuotaInfo)
    (hq : (CheckQuota (Env.ok now) db tenantID quotaType limitType productCode).quota = some q)
    (ha : 0 ≤ amount)
    (hav : amount ≤ (CheckQuota (Env.ok now) db tenantID quotaType limitType
      productCode).available)
    (hh : isInt32 q.HardLimit) (hu : isInt32 q.UsedCount)
    (hfit : minInt32 ≤ q.HardLimit - q.UsedCount) :
    (ConsumeQuota (Env.ok now) db tenantID quotaType limitType amount productCode bizID
      bizType).success = true ∧
    (ConsumeQuota (Env.ok now) db tenantID quotaType limitType amount productCode bizID
      bizType).err = none ∧
    (ConsumeQuota (Env.ok now) db tenantID quotaType limitType amount productCode bizID
      bizType).remainingQuota
      = (CheckQuota (Env.ok now) db tenantID quotaType limitType productCode).available
        - amount ∧
    ∃ m e, ConsumeResolves (Env.ok now) db tenantID quotaType limitType productCode m ∧
      convertModelToBiz m = q ∧ m.QuotaID = q.QuotaID ∧
      (ConsumeQuota (Env.ok now) db tenantID quotaType limitType amount productCode bizID
        bizType).db.usages = db.usages ++ [e] ∧
      e.QuotaID = q.QuotaID ∧
      stored (ConsumeQuota (Env.ok now) db tenantID quotaType limitType amount productCode bizID
        bizType).db q.QuotaID
        = some { m with UsedCount := m.UsedCount + amount, UpdatedAt := now } := by
  rw [CheckQuota_of_reference] at hq hav ⊢
  cases hr : resolveReference db.quotas tenantID quotaType limitType productCode with
  | none => simp [hr] at hq
  | some r =>
    simp only [hr, Option.some.injEq] at hq hav ⊢
    subst hq
    have hres := @ConsumeResolves_of_reference now db tenantID quotaType limitType productCode r hr
    have hmem : r ∈ db.quotas := by
      rcases hres with h | ⟨_, h⟩
      · exact (First_row_mem h).1
      · exact (First_row_mem h).1
    obtain ⟨hadd, hsum, hrem⟩ :=
      check_consume_arith r.HardLimit r.UsedCount amount hh hu hfit ha hav
    have hle : add32 r.UsedCount amount ≤ r.HardLimit := by
      rw [hadd]; exact hsum
    rw [ConsumeQuota_ok_pass hres amount bizID bizType hle]
    refine ⟨rfl, rfl, ?_, r, _, hres, rfl, rfl, rfl, rfl, ?_⟩
    · show sub32 r.HardLimit (add32 r.UsedCount amount)
        = sub32 r.HardLimit r.UsedCount - amount
      rw [hadd]
      exact hrem
    · have hst := stored_Save now { r with UsedCount := add32 r.UsedCount amount } db.quotas
        (Create now
          { RecordID := 0, QuotaID := r.QuotaID, TenantID := tenantID,
            OperationType := "CONSUME", DeltaValue := amount,
            CurrentUsed := add32 r.UsedCount amount, BizID := bizID, BizType := bizType,
            Operator := "", OperationTime := 0, ExpireTime := 0, Remark := "" }
          db.usages) ⟨r, hmem, rfl⟩
      have e : ({ r with UsedCount := r.UsedCount + amount, UpdatedAt := now } : QuotaModel)
          = { r with UsedCount := add32 r.UsedCount amount, UpdatedAt := now } := by
        rw [hadd]
      rw [e]
      exact hst

/-- C25 (amended) at the scenario of the specification: on
`{hardLimit = 100, usedCount = 95}` the check gives `available = 5`, and the
consume of 5 succeeds with `remaining = 0`. -/
theorem check_then_consume_witness :
    (ConsumeQuota (Env.ok 0) (sampleDB 100 95) "t1" QuotaTypeSMS LimitTypeDaily 5 "" "b"
      "o").success = true ∧
    (ConsumeQuota (Env.ok 0) (sampleDB 100 95) "t1" QuotaTypeSMS LimitTypeDaily 5 "" "b"
      "o").remainingQuota
      = (CheckQuota (Env.ok 0) (sampleDB 100 95) "t1" QuotaTypeSMS LimitTypeDaily "").available
        - 5 :=
  ⟨(check_then_consume 0 (sampleDB 100 95) "t1" QuotaTypeSMS LimitTypeDaily 5 "" "b" "o"
      (convertModelToBiz (sampleRow 100 95)) (by decide) (by decide) (by decide) (by decide)
      (by decide) (by decide)).1,
   (check_then_consume 0 (sampleDB 100 95) "t1" QuotaTypeSMS LimitTypeDaily 5 "" "b" "o"
      (convertModelToBiz (sampleRow 100 95)) (by decide) (by decide) (by decide) (by decide)
      (by decide) (by decide)).2.2.1⟩

/-! ## the frame of consume and release -/

/-- A transaction that returns an error leaves the tables as they were. -/
theorem Transaction_err_db {env : Env} {db : DB} {fc : DB → Outcome}
    (h : (Transaction env db fc).err ≠ none) : (Transaction env db fc).db = db := by
  unfold Transaction at h ⊢
  cases hb : env.beginErr with
  | some msg => simp
  | none =>
    cases he : (fc db).err with
    | some e => simp [he]
    | none =>
      cases hc : env.commitErr with
      | some msg => simp [he, hc]
      | none => simp [hb, he, hc] at h

/-- With distinct primary keys, the write-back of a row touches that row only. -/
theorem Save_eq_map_of_nodup {rows : List QuotaModel} {m : QuotaModel} (now : Int)
    (m1 : QuotaModel) (hpk : (rows.map (fun r => r.QuotaID)).Nodup) (hmem : m ∈ rows)
    (hid : m1.QuotaID = m.QuotaID) :
    Save now m1 rows
      = rows.map (fun r => if r = m then { m1 with UpdatedAt := now } else r) := by
  unfold Save
  apply List.map_congr_left
  intro r hr
  by_cases h : r = m
  · subst h
    simp [hid]
  · have hne : ¬ r.QuotaID = m1.QuotaID := by
      intro hc
      exact h (List.inj_on_of_nodup_map hpk hr hmem (hc.trans hid))
    simp [h, hne]

/-- C26: on a table with distinct primary keys, a `ConsumeQuota` or `ReleaseQuota`
that returns an error leaves both tables as they were; one that returns no error
replaces the row `m` it locked, and no other row, by `m` with a new `usedCount`
(and `updated_at` set to the clock): hard limit, soft limit, tenant, quota type,
limit type, global flag, product codes, reset time and next reset time of the
stored row are those of `m`. The usage ledger afterwards is the ledger before
with one entry appended. -/
theorem consume_release_frame (env : Env) (db : DB) (tenantID : String)
    (quotaType : QuotaType) (limitType : LimitType) (amount : Int)
    (productCode bizID bizType : String)
    (hpk : (db.quotas.map (fun r => r.QuotaID)).Nodup) :
    (((ConsumeQuota env db tenantID quotaType limitType amount productCode bizID
          bizType).err ≠ none →
        (ConsumeQuota env db tenantID quotaType limitType amount productCode bizID
          bizType).db = db) ∧
      ((ConsumeQuota env db tenantID quotaType limitType amount productCode bizID
          bizType).err = none →
        ∃ m used e, ConsumeResolves env db tenantID quotaType limitType productCode m ∧
          m ∈ db.quotas ∧
          (ConsumeQuota env db tenantID quotaType limitType amount productCode bizID
            bizType).db.quotas
            = db.quotas.map (fun r =>
                if r = m then { m with UsedCount := used, UpdatedAt := env.now } else r) ∧
          (∃ r1, stored (ConsumeQuota env db tenantID quotaType limitType amount productCode
              bizID bizType).db m.QuotaID = some r1 ∧
            r1.HardLimit = m.HardLimit ∧ r1.SoftLimit = m.SoftLimit ∧
            r1.TenantID = m.TenantID ∧ r1.QuotaType = m.QuotaType ∧
            r1.LimitType = m.LimitType ∧ r1.IsGlobal = m.IsGlobal ∧
            r1.ProductCodes = m.ProductCodes ∧ r1.ResetTime = m.ResetTime ∧
            r1.NextResetTime = m.NextResetTime) ∧
          (ConsumeQuota env db tenantID quotaType limitType amount productCode bizID
            bizType).db.usages = db.usages ++ [e])) ∧
    (((ReleaseQuota env db tenantID quotaType limitType amount productCode bizID).err ≠ none →
        (ReleaseQuota env db tenantID quotaType limitType amount productCode bizID).db = db) ∧
      ((ReleaseQuota env db tenantID quotaType limitType amount productCode bizID).err = none →
        ∃ m used e, ReleaseResolves env db tenantID quotaType limitType productCode m ∧
          m ∈ db.quotas ∧
          (ReleaseQuota env db tenantID quotaType limitType amount productCode bizID).db.quotas
            = db.quotas.map (fun r =>
                if r = m then { m with UsedCount := used, UpdatedAt := env.now } else r) ∧
          (∃ r1, stored (ReleaseQuota env db tenantID quotaType limitType amount productCode
              bizID).db m.QuotaID = some r1 ∧
            r1.HardLimit = m.HardLimit ∧ r1.SoftLimit = m.SoftLimit ∧
            r1.TenantID = m.TenantID ∧ r1.QuotaType = m.QuotaType ∧
            r1.LimitType = m.LimitType ∧ r1.IsGlobal = m.IsGlobal ∧
            r1.ProductCodes = m.ProductCodes ∧ r1.ResetTime = m.ResetTime ∧
            r1.NextResetTime = m.NextResetTime) ∧
          (ReleaseQuota env db tenantID quotaType limitType amount productCode bizID).db.usages
            = db.usages ++ [e])) := by
  refine ⟨⟨?_, ?_⟩, ⟨?_, ?_⟩⟩
  · intro h
    unfold ConsumeQuota at h ⊢
    exact Transaction_err_db h
  · intro h
    obtain ⟨m, hres, hmem, _, heq⟩ := ConsumeQuota_err_none h
    rw [heq]
    refine ⟨m, add32 m.UsedCount amount, _, hres, hmem, ?_,
      ⟨{ m with UsedCount := add32 m.UsedCount amount, UpdatedAt := env.now }, ?_,
        rfl, rfl, rfl, rfl, rfl, rfl, rfl, rfl, rfl⟩, rfl⟩
    · exact Save_eq_map_of_nodup env.now { m with UsedCount := add32 m.UsedCount amount }
        hpk hmem rfl
    · exact stored_Save env.now { m with UsedCount := add32 m.UsedCount amount } db.quotas _
        ⟨m, hmem, rfl⟩
  · intro h
    unfold ReleaseQuota at h ⊢
    exact Transaction_err_db h
  · intro h
    obtain ⟨m, hres, hmem, heq⟩ := ReleaseQuota_err_none h
    rw [heq]
    refine ⟨m, (if m.UsedCount < amount then 0 else sub32 m.UsedCount amount), _, hres, hmem,
      ?_,
      ⟨{ m with
          UsedCount := if m.UsedCount < amount then 0 else sub32 m.UsedCount amount,
          UpdatedAt := env.now }, ?_,
        rfl, rfl, rfl, rfl, rfl, rfl, rfl, rfl, rfl⟩, rfl⟩
    · exact Save_eq_map_of_nodup env.now
        { m with UsedCount := if m.UsedCount < amount then 0 else sub32 m.UsedCount amount }
        hpk hmem rfl
    · exact stored_Save env.now
        { m with UsedCount := if m.UsedCount < amount then 0 else sub32 m.UsedCount amount }
        db.quotas _ ⟨m, hmem, rfl⟩

/-- C26 on a store with three rows: a consume of 5 on the row of tenant `t1` changes
the counter of that row and appends one entry; the other two rows stay. -/
theorem consume_release_frame_witness :
    (ConsumeQuota (Env.ok 9)
      { quotas := [sampleRow 100 95, globalRow 100 10,
                   { sampleRow 50 3 with QuotaID := 3, TenantID := "t2" }],
        usages := [] } "t1" QuotaTypeSMS LimitTypeDaily 5 "" "b" "o").db.quotas
      = [{ sampleRow 100 100 with UpdatedAt := 9 }, globalRow 100 10,
         { sampleRow 50 3 with QuotaID := 3, TenantID := "t2" }] ∧
    ∃ m used e, ReleaseResolves (Env.ok 9)
        { quotas := [sampleRow 100 95, globalRow 100 10,
                     { sampleRow 50 3 with QuotaID := 3, TenantID := "t2" }],
          usages := [] } "t1" QuotaTypeSMS LimitTypeDaily "" m ∧
      m ∈ [sampleRow 100 95, globalRow 100 10,
           { sampleRow 50 3 with QuotaID := 3, TenantID := "t2" }] ∧
      (ReleaseQuota (Env.ok 9)
        { quotas := [sampleRow 100 95, globalRow 100 10,
                     { sampleRow 50 3 with QuotaID := 3, TenantID := "t2" }],
          usages := [] } "t1" QuotaTypeSMS LimitTypeDaily 5 "" "b").db.quotas
        = [sampleRow 100 95, globalRow 100 10,
           { sampleRow 50 3 with QuotaID := 3, TenantID := "t2" }].map (fun r =>
            if r = m then { m with UsedCount := used, UpdatedAt := (Env.ok 9).now } else r) ∧
      (ReleaseQuota (Env.ok 9)
        { quotas := [sampleRow 100 95, globalRow 100 10,
                     { sampleRow 50 3 with QuotaID := 3, TenantID := "t2" }],
          usages := [] } "t1" QuotaTypeSMS LimitTypeDaily 5 "" "b").db.usages
        = ([] : List QuotaUsageModel) ++ [e] := by
  have h := consume_release_frame (Env.ok 9)
    { quotas := [sampleRow 100 95, globalRow 100 10,
                 { sampleRow 50 3 with QuotaID := 3, TenantID := "t2" }],
      usages := [] } "t1" QuotaTypeSMS LimitTypeDaily 5 "" "b" "o" (by decide)
  refine ⟨by decide, ?_⟩
  obtain ⟨m, used, e, h1, h2, h3, _, h5⟩ := h.2.2 (by decide)
  exact ⟨m, used, e, h1, h2, h3, h5⟩

end TenantService
